import Mathlib

set_option maxRecDepth 16000
set_option maxHeartbeats 4000000

/-!
A shallow embedding of the miniWeather serial mini-app
(src/miniWeather_serial.cpp) in exact rational arithmetic.

Modelling conventions:
* C doubles become rationals; arithmetic is exact.  Division is Lean's
  total division on the rationals (q / 0 = 0); this differs from IEEE
  division exactly where the program divides by zero, namely the
  hyper-viscosity coefficient hv_coef = -hv_beta*delta/(16*dt) of the
  flux kernels when the stage dt is 0 (the model gives 0, the program
  -inf followed by NaN propagation).
* The transcendental library calls (pow, sqrt, cos, exp) are abstracted
  into a structure of primitive functions `Prims`; definitions and
  theorems are parametric in the primitives.
* A state array state[ll][k][i] (flattened in the source as
  ll*(nz+2*hs)*(nx+2*hs) + k*(nx+2*hs) + i) is modelled as a function
  of the three indices; every access in the source stays inside the
  bounds ll < 4, k < nz+2*hs, i < nx+2*hs, where the flat index map is
  injective, so the function model is faithful.
* Loops whose iterations write pairwise distinct cells and read only
  cells not written by the same loop are translated pointwise; the
  variable-major update loop of semi_discrete_step, whose iterations
  interact through tend[WMOM], is translated as a fold over the four
  variable sweeps.
* The serial MPI dummy section pins nranks = 1, myrank = 0,
  i_beg = k_beg = 0, so those are embedded as the constants they are.
-/

namespace MW

/-! ### Physical and numerical constants (from the source header) -/

def pi : ℚ := 3.14159265358979323846264338327
def grav : ℚ := 9.8
def cp : ℚ := 1004
def cv : ℚ := 717
def rd : ℚ := 287
def p0 : ℚ := 100000
def C0 : ℚ := 27.5629410929725921310572974482
def gamm : ℚ := 1.40027894002789400278940027894

def xlen : ℚ := 20000
def zlen : ℚ := 10000
def hv_beta : ℚ := 0.05
def cfl : ℚ := 1.5
def max_speed : ℚ := 450
def hs : ℕ := 2
def sten_size : ℕ := 4

def NUM_VARS : ℕ := 4
def ID_DENS : ℕ := 0
def ID_UMOM : ℕ := 1
def ID_WMOM : ℕ := 2
def ID_RHOT : ℕ := 3

def DIR_X : ℤ := 1
def DIR_Z : ℤ := 2

def DATA_SPEC_COLLISION : ℤ := 1
def DATA_SPEC_THERMAL : ℤ := 2
def DATA_SPEC_GRAVITY_WAVES : ℤ := 3
def DATA_SPEC_DENSITY_CURRENT : ℤ := 5
def DATA_SPEC_INJECTION : ℤ := 6

def nqpoints : ℕ := 3

def qpoints (n : ℕ) : ℚ :=
  if n = 0 then 0.112701665379258311482073460022
  else if n = 1 then 0.500000000000000000000000000000
  else if n = 2 then 0.887298334620741688517926539980
  else 0

def qweights (n : ℕ) : ℚ :=
  if n = 0 then 0.277777777777777777777777777779
  else if n = 1 then 0.444444444444444444444444444444
  else if n = 2 then 0.277777777777777777777777777779
  else 0

/-- Serial MPI dummy section: this rank is rank 0. -/
def myrank : ℤ := 0

/-- double dmin(double a, double b) -/
def dmin (a b : ℚ) : ℚ := if a < b then a else b

/-! ### Configuration (the compile-time _NX, _NZ, _DATA_SPEC macros) -/

structure Cfg where
  nx : ℕ
  nz : ℕ
  data_spec_int : ℤ

def dx (c : Cfg) : ℚ := xlen / (c.nx : ℚ)
def dz (c : Cfg) : ℚ := zlen / (c.nz : ℚ)

/-- dt = dmin(dx,dz) / max_speed * cfl -/
def dtOf (c : Cfg) : ℚ := dmin (dx c) (dz c) / max_speed * cfl

/-! ### Abstract transcendental primitives -/

/-- The C math library calls used by the program, abstracted: pow, sqrt,
cos, exp.  All embedded functions are parametric in these. -/
structure Prims where
  pow : ℚ → ℚ → ℚ
  sqrt : ℚ → ℚ
  cos : ℚ → ℚ
  exp : ℚ → ℚ

/-! ### Scenario generators (initial-condition library) -/

/-- The six reference outputs (r,u,w,t,hr,ht) of a scenario generator. -/
structure Sample where
  r : ℚ
  u : ℚ
  w : ℚ
  t : ℚ
  hr : ℚ
  ht : ℚ

/-- hydro_const_theta: returns (r, t) at height z. -/
def hydro_const_theta (P : Prims) (z : ℚ) : ℚ × ℚ :=
  let theta0 : ℚ := 300
  let exner0 : ℚ := 1
  let t := theta0
  let exner := exner0 - grav * z / (cp * theta0)
  let p := p0 * P.pow exner (cp / rd)
  let rt := P.pow (p / C0) (1 / gamm)
  (rt / t, t)

/-- hydro_const_bvfreq: returns (r, t) at height z for Brunt-Vaisala
frequency bv_freq0. -/
def hydro_const_bvfreq (P : Prims) (z bv_freq0 : ℚ) : ℚ × ℚ :=
  let theta0 : ℚ := 300
  let exner0 : ℚ := 1
  let t := theta0 * P.exp (bv_freq0 * bv_freq0 / grav * z)
  let exner := exner0 - grav * grav / (cp * bv_freq0 * bv_freq0) * (t - theta0) / (t * theta0)
  let p := p0 * P.pow exner (cp / rd)
  let rt := P.pow (p / C0) (1 / gamm)
  (rt / t, t)

/-- sample_ellipse_cosine -/
def sample_ellipse_cosine (P : Prims) (x z amp x0 z0 xrad zrad : ℚ) : ℚ :=
  let dist := P.sqrt (((x - x0) / xrad) * ((x - x0) / xrad) +
      ((z - z0) / zrad) * ((z - z0) / zrad)) * pi / 2
  if dist ≤ pi / 2 then amp * P.pow (P.cos dist) 2 else 0

def injection (P : Prims) (_x z : ℚ) : Sample :=
  let h := hydro_const_theta P z
  { r := 0, u := 0, w := 0, t := 0, hr := h.1, ht := h.2 }

def density_current (P : Prims) (x z : ℚ) : Sample :=
  let h := hydro_const_theta P z
  { r := 0, u := 0, w := 0
  , t := 0 + sample_ellipse_cosine P x z (-20) (xlen / 2) 5000 4000 2000
  , hr := h.1, ht := h.2 }

def gravity_waves (P : Prims) (_x z : ℚ) : Sample :=
  let h := hydro_const_bvfreq P z 0.02
  { r := 0, u := 15, w := 0, t := 0, hr := h.1, ht := h.2 }

def thermal (P : Prims) (x z : ℚ) : Sample :=
  let h := hydro_const_theta P z
  { r := 0, u := 0, w := 0
  , t := 0 + sample_ellipse_cosine P x z 3 (xlen / 2) 2000 2000 2000
  , hr := h.1, ht := h.2 }

def collision (P : Prims) (x z : ℚ) : Sample :=
  let h := hydro_const_theta P z
  { r := 0, u := 0, w := 0
  , t := 0 + sample_ellipse_cosine P x z 20 (xlen / 2) 2000 2000 2000
        + sample_ellipse_cosine P x z (-20) (xlen / 2) 8000 2000 2000
  , hr := h.1, ht := h.2 }

/-- The five data_spec dispatch tests of init, in source order.  The
locals (r,u,w,t,hr,ht) keep their previous (indeterminate) values when
no branch fires; the parameter junk stands for those values. -/
def scenarioSample (P : Prims) (ds : ℤ) (x z : ℚ) (junk : Sample) : Sample :=
  let s0 := junk
  let s1 := if ds = DATA_SPEC_COLLISION then collision P x z else s0
  let s2 := if ds = DATA_SPEC_THERMAL then thermal P x z else s1
  let s3 := if ds = DATA_SPEC_GRAVITY_WAVES then gravity_waves P x z else s2
  let s4 := if ds = DATA_SPEC_DENSITY_CURRENT then density_current P x z else s3
  if ds = DATA_SPEC_INJECTION then injection P x z else s4

/-! ### State and hydrostatic arrays -/

/-- Fluid state, indexed (variable, z row, x column); the source array
has extents (NUM_VARS, nz+2*hs, nx+2*hs). -/
abbrev St := ℕ → ℕ → ℕ → ℚ

/-- Tendencies, indexed (variable, k, i) over cell interiors. -/
abbrev Td := ℕ → ℕ → ℕ → ℚ

/-- The five one-dimensional hydrostatic profile arrays. -/
structure Hydro where
  cell : ℕ → ℚ
  thetaCell : ℕ → ℚ
  int : ℕ → ℚ
  thetaInt : ℕ → ℚ
  pressInt : ℕ → ℚ

/-- The cell-averaged initial fluid state computed by init via 3x3
Gauss-Legendre quadrature (i_beg = k_beg = 0). -/
def initState (P : Prims) (c : Cfg) (junk : Sample) : St := fun ll k i =>
  Finset.sum (Finset.range nqpoints) fun kk =>
    Finset.sum (Finset.range nqpoints) fun ii =>
      let x := ((i : ℚ) - (hs : ℚ) + 0.5) * dx c + (qpoints ii - 0.5) * dx c
      let z := ((k : ℚ) - (hs : ℚ) + 0.5) * dz c + (qpoints kk - 0.5) * dz c
      let s := scenarioSample P c.data_spec_int x z junk
      (if ll = ID_DENS then s.r
       else if ll = ID_UMOM then (s.r + s.hr) * s.u
       else if ll = ID_WMOM then (s.r + s.hr) * s.w
       else if ll = ID_RHOT then (s.r + s.hr) * (s.t + s.ht) - s.hr * s.ht
       else 0) * qweights ii * qweights kk

/-- The hydrostatic background arrays computed by init.  In the
cell-average loop the height z = (k_beg + k - hs + 0.5)*dz is assigned
inside the quadrature loop but does not depend on the quadrature
index kk. -/
def initHydro (P : Prims) (c : Cfg) (junk : Sample) : Hydro :=
  { cell := fun k =>
      Finset.sum (Finset.range nqpoints) fun kk =>
        let z := ((k : ℚ) - (hs : ℚ) + 0.5) * dz c
        (scenarioSample P c.data_spec_int 0 z junk).hr * qweights kk
  , thetaCell := fun k =>
      Finset.sum (Finset.range nqpoints) fun kk =>
        let z := ((k : ℚ) - (hs : ℚ) + 0.5) * dz c
        let s := scenarioSample P c.data_spec_int 0 z junk
        s.hr * s.ht * qweights kk
  , int := fun k =>
      (scenarioSample P c.data_spec_int 0 ((k : ℚ) * dz c) junk).hr
  , thetaInt := fun k =>
      let s := scenarioSample P c.data_spec_int 0 ((k : ℚ) * dz c) junk
      s.hr * s.ht
  , pressInt := fun k =>
      let s := scenarioSample P c.data_spec_int 0 ((k : ℚ) * dz c) junk
      C0 * P.pow (s.hr * s.ht) gamm }

/-- init returns normally for every data_spec_int: it contains no
validation and no failure exit (the only exits in the program are in
the NetCDF wrapper).  The error type records that no error value is
ever produced. -/
def initE (P : Prims) (c : Cfg) (junk : Sample) : Except String (St × Hydro) :=
  Except.ok (initState P c junk, initHydro P c junk)

/-! ### Halo routines -/

/-- The periodic copy loop of set_halo_values_x: for every variable
and every interior row, columns 0, 1, nx+hs, nx+hs+1 receive the values
of columns nx+hs-2, nx+hs-1, hs, hs+1. -/
def halo_x_periodic (c : Cfg) (s : St) : St := fun ll k i =>
  if hs ≤ k ∧ k < c.nz + hs then
    if i = 0 then s ll k (c.nx + hs - 2)
    else if i = 1 then s ll k (c.nx + hs - 1)
    else if i = c.nx + hs then s ll k hs
    else if i = c.nx + hs + 1 then s ll k (hs + 1)
    else s ll k i
  else s ll k i

/-- The injection override loop of set_halo_values_x (rank 0): at left
halo columns i < hs of interior rows whose cell-centre height z
satisfies |z - 3*zlen/4| <= zlen/16, the x momentum becomes
(dens + hy_dens_cell)*50 and rho*theta becomes
(dens + hy_dens_cell)*298 - hy_dens_theta_cell. -/
def halo_x_inject (c : Cfg) (hy : Hydro) (s1 : St) : St := fun ll k i =>
  if hs ≤ k ∧ k < c.nz + hs ∧ i < hs ∧
      |((k : ℚ) - (hs : ℚ) + 0.5) * dz c - 3 * zlen / 4| ≤ zlen / 16 then
    if ll = ID_UMOM then (s1 ID_DENS k i + hy.cell k) * 50
    else if ll = ID_RHOT then (s1 ID_DENS k i + hy.cell k) * 298 - hy.thetaCell k
    else s1 ll k i
  else s1 ll k i

/-- set_halo_values_x: periodic copies into the x halo columns,
followed on rank 0 by the injection override of the left halo. -/
def set_halo_values_x (c : Cfg) (hy : Hydro) (s : St) : St :=
  if c.data_spec_int = DATA_SPEC_INJECTION ∧ myrank = 0 then
    halo_x_inject c hy (halo_x_periodic c s)
  else halo_x_periodic c s

/-- set_halo_values_z: rigid-lid rows.  The four written rows are
0, 1, nz+hs, nz+hs+1; the nearest interior row is hs resp. nz+hs-1. -/
def set_halo_values_z (c : Cfg) (hy : Hydro) (s : St) : St := fun ll k i =>
  if i < c.nx + 2 * hs ∧ (k = 0 ∨ k = 1 ∨ k = c.nz + hs ∨ k = c.nz + hs + 1) then
    let near := if k = 0 ∨ k = 1 then hs else c.nz + hs - 1
    if ll = ID_WMOM then 0
    else if ll = ID_UMOM then s ll near i / hy.cell near * hy.cell k
    else s ll near i
  else s ll k i

/-! ### Flux and tendency kernels -/

/-- The four-point stencil arrays stencil[0..3] filled per variable by
the x kernel at interface (k, i): entry (l, j) is state[l][k+hs][i+j]. -/
def stencil_x (s : St) (k i : ℕ) : List (List ℚ) :=
  (List.range NUM_VARS).map fun l => (List.range sten_size).map fun j => s l (k + hs) (i + j)

/-- The four-point stencil arrays filled per variable by the z kernel
at interface (k, i): entry (l, j) is state[l][k+j][i+hs]. -/
def stencil_z (s : St) (k i : ℕ) : List (List ℚ) :=
  (List.range NUM_VARS).map fun l => (List.range sten_size).map fun j => s l (k + j) (i + hs)

/-- vals[l]: fourth-order interface reconstruction from one stencil. -/
def vals_of (sten : List ℚ) : ℚ :=
  -sten.getD 0 0 / 12 + 7 * sten.getD 1 0 / 12 + 7 * sten.getD 2 0 / 12 - sten.getD 3 0 / 12

/-- d3_vals[l]: first-order third-derivative proxy from one stencil. -/
def d3_of (sten : List ℚ) : ℚ :=
  -sten.getD 0 0 + 3 * sten.getD 1 0 - 3 * sten.getD 2 0 + sten.getD 3 0

/-- The flux vector formed by compute_tendencies_x from the stencils at
interface (k, i), as a function of the variable index.  The hv_coef
expression divides by the stage dt: under the model's total division it
is 0 at dtq = 0, where the C expression is -inf; the definition is
faithful to the source only for dtq /= 0. -/
def flux_x_core (P : Prims) (c : Cfg) (hy : Hydro) (dtq : ℚ) (k : ℕ)
    (sten4 : List (List ℚ)) : ℕ → ℚ := fun ll =>
  let hv_coef := -hv_beta * dx c / (16 * dtq)
  let vals := fun l => vals_of (sten4.getD l [])
  let d3 := fun l => d3_of (sten4.getD l [])
  let r := vals ID_DENS + hy.cell (k + hs)
  let u := vals ID_UMOM / r
  let w := vals ID_WMOM / r
  let t := (vals ID_RHOT + hy.thetaCell (k + hs)) / r
  let p := C0 * P.pow (r * t) gamm
  if ll = ID_DENS then r * u - hv_coef * d3 ID_DENS
  else if ll = ID_UMOM then r * u * u + p - hv_coef * d3 ID_UMOM
  else if ll = ID_WMOM then r * u * w - hv_coef * d3 ID_WMOM
  else if ll = ID_RHOT then r * u * t - hv_coef * d3 ID_RHOT
  else 0

/-- The interface flux computed by compute_tendencies_x at (ll, k, i),
used at k < nz, i < nx+1. -/
def flux_x (P : Prims) (c : Cfg) (hy : Hydro) (dtq : ℚ) (s : St) : ℕ → ℕ → ℕ → ℚ :=
  fun ll k i => flux_x_core P c hy dtq k (stencil_x s k i) ll

/-- The tendencies written by compute_tendencies_x. -/
def tend_x (P : Prims) (c : Cfg) (hy : Hydro) (dtq : ℚ) (s : St) : Td := fun ll k i =>
  -(flux_x P c hy dtq s ll k (i + 1) - flux_x P c hy dtq s ll k i) / dx c

/-- The flux vector formed by compute_tendencies_z from the stencils at
interface (k, i).  At k = 0 and k = nz the vertical velocity and the
density third derivative are zeroed before the flux is formed.  As in
the x kernel, hv_coef divides by the stage dt, so the definition is
faithful to the source only for dtq /= 0. -/
def flux_z_core (P : Prims) (c : Cfg) (hy : Hydro) (dtq : ℚ) (k : ℕ)
    (sten4 : List (List ℚ)) : ℕ → ℚ := fun ll =>
  let hv_coef := -hv_beta * dz c / (16 * dtq)
  let vals := fun l => vals_of (sten4.getD l [])
  let d3 := fun l => d3_of (sten4.getD l [])
  let r := vals ID_DENS + hy.int k
  let u := vals ID_UMOM / r
  let w0 := vals ID_WMOM / r
  let t := (vals ID_RHOT + hy.thetaInt k) / r
  let p := C0 * P.pow (r * t) gamm - hy.pressInt k
  let w := if k = 0 ∨ k = c.nz then 0 else w0
  let d3D := if k = 0 ∨ k = c.nz then 0 else d3 ID_DENS
  if ll = ID_DENS then r * w - hv_coef * d3D
  else if ll = ID_UMOM then r * w * u - hv_coef * d3 ID_UMOM
  else if ll = ID_WMOM then r * w * w + p - hv_coef * d3 ID_WMOM
  else if ll = ID_RHOT then r * w * t - hv_coef * d3 ID_RHOT
  else 0

/-- The interface flux computed by compute_tendencies_z at (ll, k, i),
used at k < nz+1, i < nx. -/
def flux_z (P : Prims) (c : Cfg) (hy : Hydro) (dtq : ℚ) (s : St) : ℕ → ℕ → ℕ → ℚ :=
  fun ll k i => flux_z_core P c hy dtq k (stencil_z s k i) ll

/-- The tendencies written by compute_tendencies_z, including the
gravitational source on the vertical momentum. -/
def tend_z (P : Prims) (c : Cfg) (hy : Hydro) (dtq : ℚ) (s : St) : Td := fun ll k i =>
  -(flux_z P c hy dtq s ll (k + 1) i - flux_z P c hy dtq s ll k i) / dz c -
    (if ll = ID_WMOM then s ID_DENS (k + hs) (i + hs) * grav else 0)

/-! ### semi_discrete_step and perform_timestep -/

/-- The manually inlined sample_ellipse_cosine call of the
state-update loop (gravity-waves forcing), at interior cell (k, i). -/
def wpert (P : Prims) (c : Cfg) (k i : ℕ) : ℚ :=
  let x := ((i : ℚ) + 0.5) * dx c
  let z := ((k : ℚ) + 0.5) * dz c
  let x0 := xlen / 8
  let z0 : ℚ := 1000
  let xrad : ℚ := 500
  let zrad : ℚ := 500
  let amp : ℚ := 0.01
  let dist := P.sqrt (((x - x0) / xrad) * ((x - x0) / xrad) +
      ((z - z0) / zrad) * ((z - z0) / zrad)) * pi / 2
  if dist ≤ pi / 2 then amp * P.pow (P.cos dist) 2 else 0

/-- One pass ll of the fused state-update loop: when the scenario is
gravity_waves every (k,i) iteration of the pass increments
tend[WMOM,k,i], and the pass then writes
state_out[ll,k,i] = state_init[ll,k,i] + dt*tend[ll,k,i].
Within one pass the iterations touch pairwise independent cells, so
the pass is pointwise; the passes ll = 0,1,2,3 are sequential. -/
def var_sweep (c : Cfg) (gw : Bool) (wh : ℕ → ℕ → ℚ) (dtq : ℚ) (sInit : St) (ll : ℕ) :
    Td × St → Td × St := fun p =>
  let td : Td := fun l k i =>
    if gw = true ∧ l = ID_WMOM ∧ k < c.nz ∧ i < c.nx then p.1 l k i + wh k i
    else p.1 l k i
  let out : St := fun l k i =>
    if l = ll ∧ hs ≤ k ∧ k < c.nz + hs ∧ hs ≤ i ∧ i < c.nx + hs then
      sInit l k i + dtq * td l (k - hs) (i - hs)
    else p.2 l k i
  (td, out)

/-- The full state-update loop of semi_discrete_step: the fold of the
four variable passes, returning the final tendency buffer and the
written output state. -/
def apply_tendencies (c : Cfg) (gw : Bool) (wh : ℕ → ℕ → ℚ) (dtq : ℚ)
    (sInit : St) (td0 : Td) (out0 : St) : Td × St :=
  List.foldl (fun p ll => var_sweep c gw wh dtq sInit ll p) (td0, out0) [0, 1, 2, 3]

/-- Memory of the two state buffers: false is state (primary), true is
state_tmp (scratch). -/
abbrev Mem := Bool → St

/-- The halo routine of direction dir applied to a state. -/
def halo_dir (c : Cfg) (hy : Hydro) (dir : ℤ) (s : St) : St :=
  if dir = DIR_X then set_halo_values_x c hy s
  else if dir = DIR_Z then set_halo_values_z c hy s
  else s

/-- The halo phase of semi_discrete_step: the forcing buffer is
mutated in place by the direction's halo routine. -/
def halo_phase (c : Cfg) (hy : Hydro) (dir : ℤ) (bForc : Bool) (m : Mem) : Mem :=
  fun b => if b = bForc then halo_dir c hy dir (m bForc) else m b

/-- The tendencies produced by the right-hand side of one sub-stage:
the direction's halo routine followed by the direction's flux/tendency
kernel. -/
def rhs_tend (P : Prims) (c : Cfg) (hy : Hydro) (dtq : ℚ) (dir : ℤ) (s : St) : Td :=
  if dir = DIR_X then tend_x P c hy dtq (set_halo_values_x c hy s)
  else if dir = DIR_Z then tend_z P c hy dtq (set_halo_values_z c hy s)
  else fun _ _ _ => 0

/-- The gravity-waves forcing increment at interior cell (k, i):
wpert * hy_dens_cell[hs+k]. -/
def wh_of (P : Prims) (c : Cfg) (hy : Hydro) (k i : ℕ) : ℚ :=
  wpert P c k i * hy.cell (hs + k)

/-- semi_discrete_step on the two-buffer memory.  The three pointer
arguments are the buffer names bInit, bForc, bOut.  The halo routine
mutates the forcing buffer in place; the tendency kernel then reads it;
finally the update loop writes the out buffer.  Returns the new memory
and the final contents of the tend buffer. -/
def semi_discrete_step (P : Prims) (c : Cfg) (hy : Hydro)
    (bInit bForc bOut : Bool) (dtq : ℚ) (dir : ℤ) (m : Mem) : Mem × Td :=
  let m1 : Mem := halo_phase c hy dir bForc m
  let td0 : Td := rhs_tend P c hy dtq dir (m bForc)
  let gw : Bool := decide (c.data_spec_int = DATA_SPEC_GRAVITY_WAVES)
  let pr := apply_tendencies c gw (wh_of P c hy) dtq (m1 bInit) td0 (m1 bOut)
  (fun b => if b = bOut then pr.2 else m1 b, pr.1)

/-- The memory after a semi_discrete_step (discarding the tend buffer). -/
def sds (P : Prims) (c : Cfg) (hy : Hydro) (bInit bForc bOut : Bool)
    (dtq : ℚ) (dir : ℤ) (m : Mem) : Mem :=
  (semi_discrete_step P c hy bInit bForc bOut dtq dir m).1

/-- One three-stage Runge-Kutta sweep in direction dir, with the
buffer roles used by perform_timestep:
(state, state, state_tmp), (state, state_tmp, state_tmp),
(state, state_tmp, state). -/
def rk_sweep (P : Prims) (c : Cfg) (hy : Hydro) (dtq : ℚ) (dir : ℤ) (m : Mem) : Mem :=
  let m1 := sds P c hy false false true (dtq / 3) dir m
  let m2 := sds P c hy false true true (dtq / 2) dir m1
  sds P c hy false true false (dtq / 1) dir m2

/-- perform_timestep: two sweeps, X then Z when direction_switch is
nonzero, else Z then X; direction_switch is toggled at the end. -/
def perform_timestep (P : Prims) (c : Cfg) (hy : Hydro) (dtq : ℚ)
    (m : Mem) (dsw : ℤ) : Mem × ℤ :=
  let m' :=
    if dsw ≠ 0 then rk_sweep P c hy dtq DIR_Z (rk_sweep P c hy dtq DIR_X m)
    else rk_sweep P c hy dtq DIR_X (rk_sweep P c hy dtq DIR_Z m)
  (m', if dsw ≠ 0 then 0 else 1)

/-- n perform_timesteps from (m, dsw), all with time step dtq. -/
def stepN (P : Prims) (c : Cfg) (hy : Hydro) (dtq : ℚ) : ℕ → Mem × ℤ → Mem × ℤ
  | 0, s => s
  | n + 1, s => stepN P c hy dtq n (perform_timestep P c hy dtq s.1 s.2)

/-! ### reductions -/

/-- The domain-total mass of the reductions routine (nranks = 1, so the
all-reduce is the identity). -/
def massOf (c : Cfg) (hy : Hydro) (s : St) : ℚ :=
  Finset.sum (Finset.range c.nz) fun k =>
    Finset.sum (Finset.range c.nx) fun i =>
      (s ID_DENS (k + hs) (i + hs) + hy.cell (hs + k)) * dx c * dz c

/-- The domain-total energy of the reductions routine. -/
def teOf (P : Prims) (c : Cfg) (hy : Hydro) (s : St) : ℚ :=
  Finset.sum (Finset.range c.nz) fun k =>
    Finset.sum (Finset.range c.nx) fun i =>
      let r := s ID_DENS (k + hs) (i + hs) + hy.cell (hs + k)
      let u := s ID_UMOM (k + hs) (i + hs) / r
      let w := s ID_WMOM (k + hs) (i + hs) / r
      let th := (s ID_RHOT (k + hs) (i + hs) + hy.thetaCell (hs + k)) / r
      let p := C0 * P.pow (r * th) gamm
      let t := th / P.pow (p0 / p) (rd / cp)
      let ke := r * (u * u + w * w)
      let ie := r * cv * t
      (ke + ie) * dx c * dz c

/-- reductions(mass, te). -/
def reductions (P : Prims) (c : Cfg) (hy : Hydro) (s : St) : ℚ × ℚ :=
  (massOf c hy s, teOf P c hy s)

/-! ### Specification-level forms of the stages and sweeps -/

/-- Equality of two states on the authoritative interior cells
(ll < NUM_VARS, hs ≤ k < nz+hs, hs ≤ i < nx+hs). -/
def InteriorEq (c : Cfg) (s s' : St) : Prop :=
  ∀ ll : ℕ, ll < NUM_VARS → ∀ k : ℕ, hs ≤ k → k < c.nz + hs →
    ∀ i : ℕ, hs ≤ i → i < c.nx + hs → s ll k i = s' ll k i

/-- One Runge-Kutta stage as the integrator effectively computes it:
out = init + dt * (RHS tendency + the gravity-waves forcing increments
landed before the WMOM write), on the interior; elsewhere the init
value.  -/
def rk_stage_eff (P : Prims) (c : Cfg) (hy : Hydro) (dtq : ℚ) (dir : ℤ)
    (Qi Qf : St) : St := fun ll k i =>
  if ll < NUM_VARS ∧ hs ≤ k ∧ k < c.nz + hs ∧ hs ≤ i ∧ i < c.nx + hs then
    Qi ll k i + dtq * (rhs_tend P c hy dtq dir Qf ll (k - hs) (i - hs) +
      if c.data_spec_int = DATA_SPEC_GRAVITY_WAVES ∧ ll = ID_WMOM then
        3 * wh_of P c hy (k - hs) (i - hs)
      else 0)
  else Qi ll k i

/-- One full three-stage sweep in the effective form. -/
def rk_sweep_eff (P : Prims) (c : Cfg) (hy : Hydro) (dtq : ℚ) (dir : ℤ) (q : St) : St :=
  let q1 := rk_stage_eff P c hy (dtq / 3) dir q q
  let q2 := rk_stage_eff P c hy (dtq / 2) dir q q1
  rk_stage_eff P c hy (dtq / 1) dir q q2

/-- One Runge-Kutta stage exactly as claim C2 words it:
out = init + dt * RHS(forcing), where RHS is halo followed by the
flux/tendency kernel, with no further contribution. -/
def rk_stage_claimC2 (P : Prims) (c : Cfg) (hy : Hydro) (dtq : ℚ) (dir : ℤ)
    (Qi Qf : St) : St := fun ll k i =>
  if ll < NUM_VARS ∧ hs ≤ k ∧ k < c.nz + hs ∧ hs ≤ i ∧ i < c.nx + hs then
    Qi ll k i + dtq * rhs_tend P c hy dtq dir Qf ll (k - hs) (i - hs)
  else Qi ll k i

/-- One full three-stage sweep in the form claim C2 words it. -/
def rk_sweep_claimC2 (P : Prims) (c : Cfg) (hy : Hydro) (dtq : ℚ) (dir : ℤ) (q : St) : St :=
  let q1 := rk_stage_claimC2 P c hy (dtq / 3) dir q q
  let q2 := rk_stage_claimC2 P c hy (dtq / 2) dir q q1
  rk_stage_claimC2 P c hy (dtq / 1) dir q q2

/-- The hydrostatic cell-average profile as claim C3 words it: the
scenario outputs summed over the three quadrature points with weights,
evaluated at the quadrature-shifted heights
z = (k_beg + k - hs + qpoints[kk] - 0.5)*dz. -/
def hy_dens_cell_claimC3 (P : Prims) (c : Cfg) (junk : Sample) : ℕ → ℚ := fun k =>
  Finset.sum (Finset.range nqpoints) fun kk =>
    let z := ((k : ℚ) - (hs : ℚ) + qpoints kk - 0.5) * dz c
    (scenarioSample P c.data_spec_int 0 z junk).hr * qweights kk

/-- The hydrostatic cell-average rho*theta profile as claim C3 words it. -/
def hy_dens_theta_cell_claimC3 (P : Prims) (c : Cfg) (junk : Sample) : ℕ → ℚ := fun k =>
  Finset.sum (Finset.range nqpoints) fun kk =>
    let z := ((k : ℚ) - (hs : ℚ) + qpoints kk - 0.5) * dz c
    let s := scenarioSample P c.data_spec_int 0 z junk
    s.hr * s.ht * qweights kk

/-! ### The kernels as transformers of the (state, flux, tend) memory -/

/-- The three arrays touched by a compute_tendencies call. -/
structure KMem where
  state : St
  flux : ℕ → ℕ → ℕ → ℚ
  tend : Td

/-- compute_tendencies_x as a memory transformer: it writes the flux
entries (ll < NUM_VARS, k < nz, i < nx+1) and the tend entries
(ll < NUM_VARS, k < nz, i < nx), and nothing else. -/
def compute_tendencies_x (P : Prims) (c : Cfg) (hy : Hydro) (dtq : ℚ) (m : KMem) : KMem :=
  { state := m.state
  , flux := fun ll k i =>
      if ll < NUM_VARS ∧ k < c.nz ∧ i < c.nx + 1 then flux_x P c hy dtq m.state ll k i
      else m.flux ll k i
  , tend := fun ll k i =>
      if ll < NUM_VARS ∧ k < c.nz ∧ i < c.nx then tend_x P c hy dtq m.state ll k i
      else m.tend ll k i }

/-- compute_tendencies_z as a memory transformer: it writes the flux
entries (ll < NUM_VARS, k < nz+1, i < nx) and the tend entries
(ll < NUM_VARS, k < nz, i < nx), and nothing else. -/
def compute_tendencies_z (P : Prims) (c : Cfg) (hy : Hydro) (dtq : ℚ) (m : KMem) : KMem :=
  { state := m.state
  , flux := fun ll k i =>
      if ll < NUM_VARS ∧ k < c.nz + 1 ∧ i < c.nx then flux_z P c hy dtq m.state ll k i
      else m.flux ll k i
  , tend := fun ll k i =>
      if ll < NUM_VARS ∧ k < c.nz ∧ i < c.nx then tend_z P c hy dtq m.state ll k i
      else m.tend ll k i }

/-! ### Concrete-window evaluation scaffolding

To evaluate the model at concrete configurations, states are tabulated
over the index window ll < NUM_VARS, k < nz+2*hs, i < nx+2*hs as
nested lists of reduced integer fractions. -/

/-- A state whose window values are given by a literal table of
(numerator, denominator) rows; row r holds (ll, k) = (r / (nz+2*hs),
r % (nz+2*hs)). -/
def fromW (c : Cfg) (L : List (List (ℤ × ℤ))) : St := fun ll k i =>
  let p := (L.getD (ll * (c.nz + 2 * hs) + k) []).getD i (0, 1)
  (p.1 : ℚ) / (p.2 : ℚ)

/-- The two-buffer memory with both buffers given by literal tables. -/
def mkMem (c : Cfg) (LA LB : List (List (ℤ × ℤ))) : Mem := fun b =>
  if b then fromW c LB else fromW c LA

/-- Pointwise equality of two states on the tabulation window. -/
def WEqP (c : Cfg) (s s' : St) : Prop :=
  ∀ ll : ℕ, ll < NUM_VARS → ∀ k : ℕ, k < c.nz + 2 * hs → ∀ i : ℕ, i < c.nx + 2 * hs →
    s ll k i = s' ll k i

instance (c : Cfg) (s s' : St) : Decidable (WEqP c s s') := by
  unfold WEqP NUM_VARS hs; infer_instance

/-- Window equality of both buffers of two memories. -/
def MEqP (c : Cfg) (m m' : Mem) : Prop :=
  WEqP c (m false) (m' false) ∧ WEqP c (m true) (m' true)

/-- The z-halo rows of the vertical momentum are zero: the rigid-lid
invariant of claim C9. -/
def zInv (c : Cfg) (s : St) : Prop :=
  ∀ i : ℕ, i < c.nx + 2 * hs →
    s ID_WMOM 0 i = 0 ∧ s ID_WMOM 1 i = 0 ∧
    s ID_WMOM (c.nz + hs) i = 0 ∧ s ID_WMOM (c.nz + hs + 1) i = 0

instance (c : Cfg) (s : St) : Decidable (zInv c s) := by
  unfold zInv hs; infer_instance




/-! ### Concrete instances for counterexamples and witnesses -/

/-- Primitives with pow collapsed to 1 and the other transcendentals the
identity: a valid instantiation of the abstract primitives. -/
def P1 : Prims := { pow := fun _ _ => 1, sqrt := id, cos := id, exp := id }

/-- Primitives with pow returning its base. -/
def Pline : Prims := { pow := fun a _ => a, sqrt := id, cos := id, exp := id }

/-- A zero junk sample for the indeterminate locals of init. -/
def junk0 : Sample := { r := 0, u := 0, w := 0, t := 0, hr := 0, ht := 0 }

/-- The injection scenario on a 2x2 grid. -/
def cfgInj : Cfg := { nx := 2, nz := 2, data_spec_int := DATA_SPEC_INJECTION }

/-- The thermal scenario on a 2x2 grid. -/
def cfgTh : Cfg := { nx := 2, nz := 2, data_spec_int := DATA_SPEC_THERMAL }

/-- The gravity_waves scenario on a 4x10 grid, whose cell (0,0) centre
(2500, 500) lies on the forcing ellipse boundary. -/
def cfgGW : Cfg := { nx := 4, nz := 10, data_spec_int := DATA_SPEC_GRAVITY_WAVES }

/-- A configuration whose data_spec_int matches no scenario. -/
def cfgBad : Cfg := { nx := 2, nz := 2, data_spec_int := 4 }

/-- The hydrostatic arrays of the injection run. -/
def hyInj : Hydro := initHydro P1 cfgInj junk0

/-- A synthetic all-ones hydrostatic background. -/
def hyOne : Hydro :=
  { cell := fun _ => 1, thetaCell := fun _ => 1, int := fun _ => 1
  , thetaInt := fun _ => 1, pressInt := fun _ => 1 }

/-- The all-zero state. -/
def sZ : St := fun _ _ _ => 0

/-- Memory with both buffers zero. -/
def memZ : Mem := fun _ => sZ

/-- Memory as left by init for the injection run: both buffers hold the
initial state. -/
def mem0 : Mem := fun _ => initState P1 cfgInj junk0

/-- A zero kernel memory. -/
def kmZ : KMem := { state := sZ, flux := fun _ _ _ => 0, tend := fun _ _ _ => 0 }

instance (c : Cfg) (m m' : Mem) : Decidable (MEqP c m m') := by
  unfold MEqP
  infer_instance

/-! ### Window tables of the injection run on the 2x2 grid: the initial
state and the six stage results of the first perform_timestep
(X sweep then Z sweep), tabulated as reduced integer fractions. -/

def W0L : List (List (Int × Int)) := [[(0, 1), (0, 1), (0, 1), (0, 1), (0, 1), (0, 1)],
 [(0, 1), (0, 1), (0, 1), (0, 1), (0, 1), (0, 1)],
 [(0, 1), (0, 1), (0, 1), (0, 1), (0, 1), (0, 1)],
 [(0, 1), (0, 1), (0, 1), (0, 1), (0, 1), (0, 1)],
 [(0, 1), (0, 1), (0, 1), (0, 1), (0, 1), (0, 1)],
 [(0, 1), (0, 1), (0, 1), (0, 1), (0, 1), (0, 1)],
 [(0, 1), (0, 1), (0, 1), (0, 1), (0, 1), (0, 1)],
 [(0, 1), (0, 1), (0, 1), (0, 1), (0, 1), (0, 1)],
 [(0, 1), (0, 1), (0, 1), (0, 1), (0, 1), (0, 1)],
 [(0, 1), (0, 1), (0, 1), (0, 1), (0, 1), (0, 1)],
 [(0, 1), (0, 1), (0, 1), (0, 1), (0, 1), (0, 1)],
 [(0, 1), (0, 1), (0, 1), (0, 1), (0, 1), (0, 1)],
 [(0, 1), (0, 1), (0, 1), (0, 1), (0, 1), (0, 1)],
 [(0, 1), (0, 1), (0, 1), (0, 1), (0, 1), (0, 1)],
 [(0, 1), (0, 1), (0, 1), (0, 1), (0, 1), (0, 1)],
 [(0, 1), (0, 1), (0, 1), (0, 1), (0, 1), (0, 1)],
 [(0, 1), (0, 1), (0, 1), (0, 1), (0, 1), (0, 1)],
 [(0, 1), (0, 1), (0, 1), (0, 1), (0, 1), (0, 1)],
 [(0, 1), (0, 1), (0, 1), (0, 1), (0, 1), (0, 1)],
 [(0, 1), (0, 1), (0, 1), (0, 1), (0, 1), (0, 1)],
 [(0, 1), (0, 1), (0, 1), (0, 1), (0, 1), (0, 1)],
 [(0, 1), (0, 1), (0, 1), (0, 1), (0, 1), (0, 1)],
 [(0, 1), (0, 1), (0, 1), (0, 1), (0, 1), (0, 1)],
 [(0, 1), (0, 1), (0, 1), (0, 1), (0, 1), (0, 1)]]

def S1A : List (List (Int × Int)) := [[(0, 1), (0, 1), (0, 1), (0, 1), (0, 1), (0, 1)],
  [(0, 1), (0, 1), (0, 1), (0, 1), (0, 1), (0, 1)],
  [(0, 1), (0, 1), (0, 1), (0, 1), (0, 1), (0, 1)],
  [(0, 1), (0, 1), (0, 1), (0, 1), (0, 1), (0, 1)],
  [(0, 1), (0, 1), (0, 1), (0, 1), (0, 1), (0, 1)],
  [(0, 1), (0, 1), (0, 1), (0, 1), (0, 1), (0, 1)],
  [(0, 1), (0, 1), (0, 1), (0, 1), (0, 1), (0, 1)],
  [(0, 1), (0, 1), (0, 1), (0, 1), (0, 1), (0, 1)],
  [(0, 1), (0, 1), (0, 1), (0, 1), (0, 1), (0, 1)],
  [(166666666666666666666666666667, 1000000000000000000000000000000),
   (166666666666666666666666666667, 1000000000000000000000000000000),
   (0, 1),
   (0, 1),
   (0, 1),
   (0, 1)],
  [(0, 1), (0, 1), (0, 1), (0, 1), (0, 1), (0, 1)],
  [(0, 1), (0, 1), (0, 1), (0, 1), (0, 1), (0, 1)],
  [(0, 1), (0, 1), (0, 1), (0, 1), (0, 1), (0, 1)],
  [(0, 1), (0, 1), (0, 1), (0, 1), (0, 1), (0, 1)],
  [(0, 1), (0, 1), (0, 1), (0, 1), (0, 1), (0, 1)],
  [(0, 1), (0, 1), (0, 1), (0, 1), (0, 1), (0, 1)],
  [(0, 1), (0, 1), (0, 1), (0, 1), (0, 1), (0, 1)],
  [(0, 1), (0, 1), (0, 1), (0, 1), (0, 1), (0, 1)],
  [(0, 1), (0, 1), (0, 1), (0, 1), (0, 1), (0, 1)],
  [(0, 1), (0, 1), (0, 1), (0, 1), (0, 1), (0, 1)],
  [(0, 1), (0, 1), (0, 1), (0, 1), (0, 1), (0, 1)],
  [(-166666666666666666666666666667, 25000000000000000000000000000000),
   (-166666666666666666666666666667, 25000000000000000000000000000000),
   (0, 1),
   (0, 1),
   (0, 1),
   (0, 1)],
  [(0, 1), (0, 1), (0, 1), (0, 1), (0, 1), (0, 1)],
  [(0, 1), (0, 1), (0, 1), (0, 1), (0, 1), (0, 1)]]

def S1B : List (List (Int × Int)) := [[(0, 1), (0, 1), (0, 1), (0, 1), (0, 1), (0, 1)],
  [(0, 1), (0, 1), (0, 1), (0, 1), (0, 1), (0, 1)],
  [(0, 1), (0, 1), (0, 1), (0, 1), (0, 1), (0, 1)],
  [(0, 1),
   (0, 1),
   (1166666666666666666666666666669, 21600000000000000000000000000000000),
   (-166666666666666666666666666667, 21600000000000000000000000000000000),
   (0, 1),
   (0, 1)],
  [(0, 1), (0, 1), (0, 1), (0, 1), (0, 1), (0, 1)],
  [(0, 1), (0, 1), (0, 1), (0, 1), (0, 1), (0, 1)],
  [(0, 1), (0, 1), (0, 1), (0, 1), (0, 1), (0, 1)],
  [(0, 1), (0, 1), (0, 1), (0, 1), (0, 1), (0, 1)],
  [(0, 1), (0, 1), (0, 1), (0, 1), (0, 1), (0, 1)],
  [(0, 1),
   (0, 1),
   (34833333333333333333333333333403, 12960000000000000000000000000000000),
   (-3166666666666666666666666666673, 6480000000000000000000000000000000),
   (0, 1),
   (0, 1)],
  [(0, 1), (0, 1), (0, 1), (0, 1), (0, 1), (0, 1)],
  [(0, 1), (0, 1), (0, 1), (0, 1), (0, 1), (0, 1)],
  [(0, 1), (0, 1), (0, 1), (0, 1), (0, 1), (0, 1)],
  [(0, 1), (0, 1), (0, 1), (0, 1), (0, 1), (0, 1)],
  [(0, 1), (0, 1), (0, 1), (0, 1), (0, 1), (0, 1)],
  [(0, 1), (0, 1), (0, 1), (0, 1), (0, 1), (0, 1)],
  [(0, 1), (0, 1), (0, 1), (0, 1), (0, 1), (0, 1)],
  [(0, 1), (0, 1), (0, 1), (0, 1), (0, 1), (0, 1)],
  [(0, 1), (0, 1), (0, 1), (0, 1), (0, 1), (0, 1)],
  [(0, 1), (0, 1), (0, 1), (0, 1), (0, 1), (0, 1)],
  [(0, 1), (0, 1), (0, 1), (0, 1), (0, 1), (0, 1)],
  [(0, 1),
   (0, 1),
   (5215166666666666666666666666677097, 324000000000000000000000000000000000),
   (-371833333333333333333333333334077, 162000000000000000000000000000000000),
   (0, 1),
   (0, 1)],
  [(0, 1), (0, 1), (0, 1), (0, 1), (0, 1), (0, 1)],
  [(0, 1), (0, 1), (0, 1), (0, 1), (0, 1), (0, 1)]]

def S2A : List (List (Int × Int)) := [[(0, 1), (0, 1), (0, 1), (0, 1), (0, 1), (0, 1)],
  [(0, 1), (0, 1), (0, 1), (0, 1), (0, 1), (0, 1)],
  [(0, 1), (0, 1), (0, 1), (0, 1), (0, 1), (0, 1)],
  [(0, 1), (0, 1), (0, 1), (0, 1), (0, 1), (0, 1)],
  [(0, 1), (0, 1), (0, 1), (0, 1), (0, 1), (0, 1)],
  [(0, 1), (0, 1), (0, 1), (0, 1), (0, 1), (0, 1)],
  [(0, 1), (0, 1), (0, 1), (0, 1), (0, 1), (0, 1)],
  [(0, 1), (0, 1), (0, 1), (0, 1), (0, 1), (0, 1)],
  [(0, 1), (0, 1), (0, 1), (0, 1), (0, 1), (0, 1)],
  [(166666666666666666666666666667, 1000000000000000000000000000000),
   (166666666666666666666666666667, 1000000000000000000000000000000),
   (0, 1),
   (0, 1),
   (0, 1),
   (0, 1)],
  [(0, 1), (0, 1), (0, 1), (0, 1), (0, 1), (0, 1)],
  [(0, 1), (0, 1), (0, 1), (0, 1), (0, 1), (0, 1)],
  [(0, 1), (0, 1), (0, 1), (0, 1), (0, 1), (0, 1)],
  [(0, 1), (0, 1), (0, 1), (0, 1), (0, 1), (0, 1)],
  [(0, 1), (0, 1), (0, 1), (0, 1), (0, 1), (0, 1)],
  [(0, 1), (0, 1), (0, 1), (0, 1), (0, 1), (0, 1)],
  [(0, 1), (0, 1), (0, 1), (0, 1), (0, 1), (0, 1)],
  [(0, 1), (0, 1), (0, 1), (0, 1), (0, 1), (0, 1)],
  [(0, 1), (0, 1), (0, 1), (0, 1), (0, 1), (0, 1)],
  [(0, 1), (0, 1), (0, 1), (0, 1), (0, 1), (0, 1)],
  [(0, 1), (0, 1), (0, 1), (0, 1), (0, 1), (0, 1)],
  [(-166666666666666666666666666667, 25000000000000000000000000000000),
   (-166666666666666666666666666667, 25000000000000000000000000000000),
   (0, 1),
   (0, 1),
   (0, 1),
   (0, 1)],
  [(0, 1), (0, 1), (0, 1), (0, 1), (0, 1), (0, 1)],
  [(0, 1), (0, 1), (0, 1), (0, 1), (0, 1), (0, 1)]]

def S2B : List (List (Int × Int)) := [[(0, 1), (0, 1), (0, 1), (0, 1), (0, 1), (0, 1)],
  [(0, 1), (0, 1), (0, 1), (0, 1), (0, 1), (0, 1)],
  [(0, 1), (0, 1), (0, 1), (0, 1), (0, 1), (0, 1)],
  [(1166666666666666666666666666669, 21600000000000000000000000000000000),
   (-166666666666666666666666666667, 21600000000000000000000000000000000),
   (329833333333333333333333333333993, 4147200000000000000000000000000000000),
   (-46833333333333333333333333333427, 4665600000000000000000000000000000000),
   (1166666666666666666666666666669, 21600000000000000000000000000000000),
   (-166666666666666666666666666667, 21600000000000000000000000000000000)],
  [(0, 1), (0, 1), (0, 1), (0, 1), (0, 1), (0, 1)],
  [(0, 1), (0, 1), (0, 1), (0, 1), (0, 1), (0, 1)],
  [(0, 1), (0, 1), (0, 1), (0, 1), (0, 1), (0, 1)],
  [(0, 1), (0, 1), (0, 1), (0, 1), (0, 1), (0, 1)],
  [(0, 1), (0, 1), (0, 1), (0, 1), (0, 1), (0, 1)],
  [(73166666666666666666666666666813, 432000000000000000000000000000000),
   (71833333333333333333333333333477, 432000000000000000000000000000000),
   (208868718833333333333333333333751070771, 64945152000000000000000000000000000000000),
   (-7331530166666666666666666666681329727, 18265824000000000000000000000000000000000),
   (34833333333333333333333333333403, 12960000000000000000000000000000000),
   (-3166666666666666666666666666673, 6480000000000000000000000000000000)],
  [(0, 1), (0, 1), (0, 1), (0, 1), (0, 1), (0, 1)],
  [(0, 1), (0, 1), (0, 1), (0, 1), (0, 1), (0, 1)],
  [(0, 1), (0, 1), (0, 1), (0, 1), (0, 1), (0, 1)],
  [(0, 1), (0, 1), (0, 1), (0, 1), (0, 1), (0, 1)],
  [(0, 1), (0, 1), (0, 1), (0, 1), (0, 1), (0, 1)],
  [(0, 1), (0, 1), (0, 1), (0, 1), (0, 1), (0, 1)],
  [(0, 1), (0, 1), (0, 1), (0, 1), (0, 1), (0, 1)],
  [(0, 1), (0, 1), (0, 1), (0, 1), (0, 1), (0, 1)],
  [(0, 1), (0, 1), (0, 1), (0, 1), (0, 1), (0, 1)],
  [(0, 1), (0, 1), (0, 1), (0, 1), (0, 1), (0, 1)],
  [(0, 1), (0, 1), (0, 1), (0, 1), (0, 1), (0, 1)],
  [(101833333333333333333333333333537, 10800000000000000000000000000000000),
   (-96833333333333333333333333333527, 10800000000000000000000000000000000),
   (38530056281166666666666666666743726779229, 1623628800000000000000000000000000000000000),
   (-1367812219833333333333333333336068957773, 456645600000000000000000000000000000000000),
   (5215166666666666666666666666677097, 324000000000000000000000000000000000),
   (-371833333333333333333333333334077, 162000000000000000000000000000000000)],
  [(0, 1), (0, 1), (0, 1), (0, 1), (0, 1), (0, 1)],
  [(0, 1), (0, 1), (0, 1), (0, 1), (0, 1), (0, 1)]]

def S3A : List (List (Int × Int)) := [[(0, 1), (0, 1), (0, 1), (0, 1), (0, 1), (0, 1)],
  [(0, 1), (0, 1), (0, 1), (0, 1), (0, 1), (0, 1)],
  [(0, 1), (0, 1), (0, 1), (0, 1), (0, 1), (0, 1)],
  [(0, 1),
   (0, 1),
   (671585820492166666666666666668009838307651, 4208445849600000000000000000000000000000000000),
   (-5495953422833333333333333333344325240179, 263027865600000000000000000000000000000000000),
   (0, 1),
   (0, 1)],
  [(0, 1), (0, 1), (0, 1), (0, 1), (0, 1), (0, 1)],
  [(0, 1), (0, 1), (0, 1), (0, 1), (0, 1), (0, 1)],
  [(0, 1), (0, 1), (0, 1), (0, 1), (0, 1), (0, 1)],
  [(0, 1), (0, 1), (0, 1), (0, 1), (0, 1), (0, 1)],
  [(0, 1), (0, 1), (0, 1), (0, 1), (0, 1), (0, 1)],
  [(166666666666666666666666666667, 1000000000000000000000000000000),
   (166666666666666666666666666667, 1000000000000000000000000000000),
   (981211420896845132713469833335295756175127023598760273, 198840407937109032960000000000000000000000000000000000000),
   (-6600422952876617364012166666679867512572419901394691, 18641288244103971840000000000000000000000000000000000000),
   (0, 1),
   (0, 1)],
  [(0, 1), (0, 1), (0, 1), (0, 1), (0, 1), (0, 1)],
  [(0, 1), (0, 1), (0, 1), (0, 1), (0, 1), (0, 1)],
  [(0, 1), (0, 1), (0, 1), (0, 1), (0, 1), (0, 1)],
  [(0, 1), (0, 1), (0, 1), (0, 1), (0, 1), (0, 1)],
  [(0, 1), (0, 1), (0, 1), (0, 1), (0, 1), (0, 1)],
  [(0, 1), (0, 1), (0, 1), (0, 1), (0, 1), (0, 1)],
  [(0, 1), (0, 1), (0, 1), (0, 1), (0, 1), (0, 1)],
  [(0, 1), (0, 1), (0, 1), (0, 1), (0, 1), (0, 1)],
  [(0, 1), (0, 1), (0, 1), (0, 1), (0, 1), (0, 1)],
  [(0, 1), (0, 1), (0, 1), (0, 1), (0, 1), (0, 1)],
  [(0, 1), (0, 1), (0, 1), (0, 1), (0, 1), (0, 1)],
  [(-166666666666666666666666666667, 25000000000000000000000000000000),
   (-166666666666666666666666666667, 25000000000000000000000000000000),
   (237001650811011612989536530167140669968288689892645739727,
    4971010198427725824000000000000000000000000000000000000000),
   (-2914715110408030588010987833339162763554149394509355309,
    466032206102599296000000000000000000000000000000000000000),
   (0, 1),
   (0, 1)],
  [(0, 1), (0, 1), (0, 1), (0, 1), (0, 1), (0, 1)],
  [(0, 1), (0, 1), (0, 1), (0, 1), (0, 1), (0, 1)]]

def S3B : List (List (Int × Int)) := [[(0, 1), (0, 1), (0, 1), (0, 1), (0, 1), (0, 1)],
  [(0, 1), (0, 1), (0, 1), (0, 1), (0, 1), (0, 1)],
  [(0, 1), (0, 1), (0, 1), (0, 1), (0, 1), (0, 1)],
  [(329833333333333333333333333333993, 4147200000000000000000000000000000000),
   (-46833333333333333333333333333427, 4665600000000000000000000000000000000),
   (329833333333333333333333333333993, 4147200000000000000000000000000000000),
   (-46833333333333333333333333333427, 4665600000000000000000000000000000000),
   (329833333333333333333333333333993, 4147200000000000000000000000000000000),
   (-46833333333333333333333333333427, 4665600000000000000000000000000000000)],
  [(0, 1), (0, 1), (0, 1), (0, 1), (0, 1), (0, 1)],
  [(0, 1), (0, 1), (0, 1), (0, 1), (0, 1), (0, 1)],
  [(0, 1), (0, 1), (0, 1), (0, 1), (0, 1), (0, 1)],
  [(0, 1), (0, 1), (0, 1), (0, 1), (0, 1), (0, 1)],
  [(0, 1), (0, 1), (0, 1), (0, 1), (0, 1), (0, 1)],
  [(14153833333333333333333333333361641, 82944000000000000000000000000000000),
   (15505166666666666666666666666697677, 93312000000000000000000000000000000),
   (208868718833333333333333333333751070771, 64945152000000000000000000000000000000000),
   (-7331530166666666666666666666681329727, 18265824000000000000000000000000000000000),
   (208868718833333333333333333333751070771, 64945152000000000000000000000000000000000),
   (-7331530166666666666666666666681329727, 18265824000000000000000000000000000000000)],
  [(0, 1), (0, 1), (0, 1), (0, 1), (0, 1), (0, 1)],
  [(0, 1), (0, 1), (0, 1), (0, 1), (0, 1), (0, 1)],
  [(0, 1), (0, 1), (0, 1), (0, 1), (0, 1), (0, 1)],
  [(0, 1), (0, 1), (0, 1), (0, 1), (0, 1), (0, 1)],
  [(0, 1), (0, 1), (0, 1), (0, 1), (0, 1), (0, 1)],
  [(0, 1), (0, 1), (0, 1), (0, 1), (0, 1), (0, 1)],
  [(0, 1), (0, 1), (0, 1), (0, 1), (0, 1), (0, 1)],
  [(0, 1), (0, 1), (0, 1), (0, 1), (0, 1), (0, 1)],
  [(0, 1), (0, 1), (0, 1), (0, 1), (0, 1), (0, 1)],
  [(0, 1), (0, 1), (0, 1), (0, 1), (0, 1), (0, 1)],
  [(0, 1), (0, 1), (0, 1), (0, 1), (0, 1), (0, 1)],
  [(35321166666666666666666666666737309, 2073600000000000000000000000000000000),
   (-22530166666666666666666666666711727, 2332800000000000000000000000000000000),
   (38530056281166666666666666666743726779229, 1623628800000000000000000000000000000000000),
   (-1367812219833333333333333333336068957773, 456645600000000000000000000000000000000000),
   (38530056281166666666666666666743726779229, 1623628800000000000000000000000000000000000),
   (-1367812219833333333333333333336068957773, 456645600000000000000000000000000000000000)],
  [(0, 1), (0, 1), (0, 1), (0, 1), (0, 1), (0, 1)],
  [(0, 1), (0, 1), (0, 1), (0, 1), (0, 1), (0, 1)]]

def S4A : List (List (Int × Int)) := [[(0, 1), (0, 1), (0, 1), (0, 1), (0, 1), (0, 1)],
  [(0, 1), (0, 1), (0, 1), (0, 1), (0, 1), (0, 1)],
  [(0, 1), (0, 1), (0, 1), (0, 1), (0, 1), (0, 1)],
  [(0, 1),
   (0, 1),
   (671585820492166666666666666668009838307651, 4208445849600000000000000000000000000000000000),
   (-5495953422833333333333333333344325240179, 263027865600000000000000000000000000000000000),
   (0, 1),
   (0, 1)],
  [(0, 1),
   (0, 1),
   (671585820492166666666666666668009838307651, 4208445849600000000000000000000000000000000000),
   (-5495953422833333333333333333344325240179, 263027865600000000000000000000000000000000000),
   (0, 1),
   (0, 1)],
  [(0, 1),
   (0, 1),
   (671585820492166666666666666668009838307651, 4208445849600000000000000000000000000000000000),
   (-5495953422833333333333333333344325240179, 263027865600000000000000000000000000000000000),
   (0, 1),
   (0, 1)],
  [(0, 1), (0, 1), (0, 1), (0, 1), (0, 1), (0, 1)],
  [(0, 1), (0, 1), (0, 1), (0, 1), (0, 1), (0, 1)],
  [(0, 1), (0, 1), (0, 1), (0, 1), (0, 1), (0, 1)],
  [(166666666666666666666666666667, 1000000000000000000000000000000),
   (166666666666666666666666666667, 1000000000000000000000000000000),
   (981211420896845132713469833335295756175127023598760273, 198840407937109032960000000000000000000000000000000000000),
   (-6600422952876617364012166666679867512572419901394691, 18641288244103971840000000000000000000000000000000000000),
   (0, 1),
   (0, 1)],
  [(166666666666666666666666666667, 1000000000000000000000000000000),
   (166666666666666666666666666667, 1000000000000000000000000000000),
   (981211420896845132713469833335295756175127023598760273, 198840407937109032960000000000000000000000000000000000000),
   (-6600422952876617364012166666679867512572419901394691, 18641288244103971840000000000000000000000000000000000000),
   (0, 1),
   (0, 1)],
  [(166666666666666666666666666667, 1000000000000000000000000000000),
   (166666666666666666666666666667, 1000000000000000000000000000000),
   (981211420896845132713469833335295756175127023598760273, 198840407937109032960000000000000000000000000000000000000),
   (-6600422952876617364012166666679867512572419901394691, 18641288244103971840000000000000000000000000000000000000),
   (0, 1),
   (0, 1)],
  [(0, 1), (0, 1), (0, 1), (0, 1), (0, 1), (0, 1)],
  [(0, 1), (0, 1), (0, 1), (0, 1), (0, 1), (0, 1)],
  [(0, 1), (0, 1), (0, 1), (0, 1), (0, 1), (0, 1)],
  [(0, 1), (0, 1), (0, 1), (0, 1), (0, 1), (0, 1)],
  [(0, 1), (0, 1), (0, 1), (0, 1), (0, 1), (0, 1)],
  [(0, 1), (0, 1), (0, 1), (0, 1), (0, 1), (0, 1)],
  [(0, 1), (0, 1), (0, 1), (0, 1), (0, 1), (0, 1)],
  [(0, 1), (0, 1), (0, 1), (0, 1), (0, 1), (0, 1)],
  [(0, 1), (0, 1), (0, 1), (0, 1), (0, 1), (0, 1)],
  [(-166666666666666666666666666667, 25000000000000000000000000000000),
   (-166666666666666666666666666667, 25000000000000000000000000000000),
   (237001650811011612989536530167140669968288689892645739727,
    4971010198427725824000000000000000000000000000000000000000),
   (-2914715110408030588010987833339162763554149394509355309,
    466032206102599296000000000000000000000000000000000000000),
   (0, 1),
   (0, 1)],
  [(-166666666666666666666666666667, 25000000000000000000000000000000),
   (-166666666666666666666666666667, 25000000000000000000000000000000),
   (237001650811011612989536530167140669968288689892645739727,
    4971010198427725824000000000000000000000000000000000000000),
   (-2914715110408030588010987833339162763554149394509355309,
    466032206102599296000000000000000000000000000000000000000),
   (0, 1),
   (0, 1)],
  [(-166666666666666666666666666667, 25000000000000000000000000000000),
   (-166666666666666666666666666667, 25000000000000000000000000000000),
   (237001650811011612989536530167140669968288689892645739727,
    4971010198427725824000000000000000000000000000000000000000),
   (-2914715110408030588010987833339162763554149394509355309,
    466032206102599296000000000000000000000000000000000000000),
   (0, 1),
   (0, 1)]]

def S4B : List (List (Int × Int)) := [[(0, 1), (0, 1), (0, 1), (0, 1), (0, 1), (0, 1)],
  [(0, 1), (0, 1), (0, 1), (0, 1), (0, 1), (0, 1)],
  [(0, 1),
   (0, 1),
   (671585820492166666666666666668009838307651, 673351335936000000000000000000000000000000000000),
   (-5495953422833333333333333333344325240179, 42084458496000000000000000000000000000000000000),
   (0, 1),
   (0, 1)],
  [(329833333333333333333333333333993, 4147200000000000000000000000000000000),
   (-46833333333333333333333333333427, 4665600000000000000000000000000000000),
   (35594048486084833333333333333404521430305503, 224450445312000000000000000000000000000000000000),
   (-291285531410166666666666666667249237729487, 14028152832000000000000000000000000000000000000),
   (329833333333333333333333333333993, 4147200000000000000000000000000000000),
   (-46833333333333333333333333333427, 4665600000000000000000000000000000000)],
  [(0, 1), (0, 1), (0, 1), (0, 1), (0, 1), (0, 1)],
  [(0, 1), (0, 1), (0, 1), (0, 1), (0, 1), (0, 1)],
  [(0, 1), (0, 1), (0, 1), (0, 1), (0, 1), (0, 1)],
  [(0, 1), (0, 1), (0, 1), (0, 1), (0, 1), (0, 1)],
  [(0, 1),
   (0, 1),
   (981211420896845132713469833335295756175127023598760273,
    21209643513291630182400000000000000000000000000000000000000),
   (-6600422952876617364012166666679867512572419901394691, 1988404079371090329600000000000000000000000000000000000000),
   (0, 1),
   (0, 1)],
  [(14153833333333333333333333333361641, 82944000000000000000000000000000000),
   (15505166666666666666666666666697677, 93312000000000000000000000000000000),
   (311044020424299907070169937167288754707515266480807006541,
    63628930539874890547200000000000000000000000000000000000000),
   (-2092334076061887704391856833337518001485457108742117047,
    5965212238113270988800000000000000000000000000000000000000),
   (208868718833333333333333333333751070771, 64945152000000000000000000000000000000000),
   (-7331530166666666666666666666681329727, 18265824000000000000000000000000000000000)],
  [(0, 1), (0, 1), (0, 1), (0, 1), (0, 1), (0, 1)],
  [(0, 1), (0, 1), (0, 1), (0, 1), (0, 1), (0, 1)],
  [(0, 1), (0, 1), (0, 1), (0, 1), (0, 1), (0, 1)],
  [(0, 1), (0, 1), (0, 1), (0, 1), (0, 1), (0, 1)],
  [(0, 1), (0, 1), (0, 1), (0, 1), (0, 1), (0, 1)],
  [(0, 1),
   (0, 1),
   (-32907705204116166666666666666732482077074899, 3787601264640000000000000000000000000000000000),
   (269301717718833333333333333333871936768771, 236725079040000000000000000000000000000000000),
   (0, 1),
   (0, 1)],
  [(0, 1), (0, 1), (0, 1), (0, 1), (0, 1), (0, 1)],
  [(0, 1), (0, 1), (0, 1), (0, 1), (0, 1), (0, 1)],
  [(0, 1), (0, 1), (0, 1), (0, 1), (0, 1), (0, 1)],
  [(0, 1), (0, 1), (0, 1), (0, 1), (0, 1), (0, 1)],
  [(0, 1),
   (0, 1),
   (237001650811011612989536530167140669968288689892645739727,
    530241087832290754560000000000000000000000000000000000000000),
   (-2914715110408030588010987833339162763554149394509355309,
    49710101984277258240000000000000000000000000000000000000000),
   (0, 1),
   (0, 1)],
  [(35321166666666666666666666666737309, 2073600000000000000000000000000000000),
   (-22530166666666666666666666666711727, 2332800000000000000000000000000000000),
   (75129523307090681317683080062983592379947514695968699493459,
    1590723263496872263680000000000000000000000000000000000000000),
   (-923964689999345696399483143168514596046665358059465632953,
    149130305952831774720000000000000000000000000000000000000000),
   (38530056281166666666666666666743726779229, 1623628800000000000000000000000000000000000),
   (-1367812219833333333333333333336068957773, 456645600000000000000000000000000000000000)],
  [(0, 1), (0, 1), (0, 1), (0, 1), (0, 1), (0, 1)],
  [(0, 1), (0, 1), (0, 1), (0, 1), (0, 1), (0, 1)]]

def S5A : List (List (Int × Int)) := [[(0, 1), (0, 1), (0, 1), (0, 1), (0, 1), (0, 1)],
  [(0, 1), (0, 1), (0, 1), (0, 1), (0, 1), (0, 1)],
  [(0, 1), (0, 1), (0, 1), (0, 1), (0, 1), (0, 1)],
  [(0, 1),
   (0, 1),
   (671585820492166666666666666668009838307651, 4208445849600000000000000000000000000000000000),
   (-5495953422833333333333333333344325240179, 263027865600000000000000000000000000000000000),
   (0, 1),
   (0, 1)],
  [(0, 1),
   (0, 1),
   (671585820492166666666666666668009838307651, 4208445849600000000000000000000000000000000000),
   (-5495953422833333333333333333344325240179, 263027865600000000000000000000000000000000000),
   (0, 1),
   (0, 1)],
  [(0, 1),
   (0, 1),
   (671585820492166666666666666668009838307651, 4208445849600000000000000000000000000000000000),
   (-5495953422833333333333333333344325240179, 263027865600000000000000000000000000000000000),
   (0, 1),
   (0, 1)],
  [(0, 1), (0, 1), (0, 1), (0, 1), (0, 1), (0, 1)],
  [(0, 1), (0, 1), (0, 1), (0, 1), (0, 1), (0, 1)],
  [(0, 1), (0, 1), (0, 1), (0, 1), (0, 1), (0, 1)],
  [(166666666666666666666666666667, 1000000000000000000000000000000),
   (166666666666666666666666666667, 1000000000000000000000000000000),
   (981211420896845132713469833335295756175127023598760273, 198840407937109032960000000000000000000000000000000000000),
   (-6600422952876617364012166666679867512572419901394691, 18641288244103971840000000000000000000000000000000000000),
   (0, 1),
   (0, 1)],
  [(166666666666666666666666666667, 1000000000000000000000000000000),
   (166666666666666666666666666667, 1000000000000000000000000000000),
   (981211420896845132713469833335295756175127023598760273, 198840407937109032960000000000000000000000000000000000000),
   (-6600422952876617364012166666679867512572419901394691, 18641288244103971840000000000000000000000000000000000000),
   (0, 1),
   (0, 1)],
  [(166666666666666666666666666667, 1000000000000000000000000000000),
   (166666666666666666666666666667, 1000000000000000000000000000000),
   (981211420896845132713469833335295756175127023598760273, 198840407937109032960000000000000000000000000000000000000),
   (-6600422952876617364012166666679867512572419901394691, 18641288244103971840000000000000000000000000000000000000),
   (0, 1),
   (0, 1)],
  [(0, 1), (0, 1), (0, 1), (0, 1), (0, 1), (0, 1)],
  [(0, 1), (0, 1), (0, 1), (0, 1), (0, 1), (0, 1)],
  [(0, 1), (0, 1), (0, 1), (0, 1), (0, 1), (0, 1)],
  [(0, 1), (0, 1), (0, 1), (0, 1), (0, 1), (0, 1)],
  [(0, 1), (0, 1), (0, 1), (0, 1), (0, 1), (0, 1)],
  [(0, 1), (0, 1), (0, 1), (0, 1), (0, 1), (0, 1)],
  [(0, 1), (0, 1), (0, 1), (0, 1), (0, 1), (0, 1)],
  [(0, 1), (0, 1), (0, 1), (0, 1), (0, 1), (0, 1)],
  [(0, 1), (0, 1), (0, 1), (0, 1), (0, 1), (0, 1)],
  [(-166666666666666666666666666667, 25000000000000000000000000000000),
   (-166666666666666666666666666667, 25000000000000000000000000000000),
   (237001650811011612989536530167140669968288689892645739727,
    4971010198427725824000000000000000000000000000000000000000),
   (-2914715110408030588010987833339162763554149394509355309,
    466032206102599296000000000000000000000000000000000000000),
   (0, 1),
   (0, 1)],
  [(-166666666666666666666666666667, 25000000000000000000000000000000),
   (-166666666666666666666666666667, 25000000000000000000000000000000),
   (237001650811011612989536530167140669968288689892645739727,
    4971010198427725824000000000000000000000000000000000000000),
   (-2914715110408030588010987833339162763554149394509355309,
    466032206102599296000000000000000000000000000000000000000),
   (0, 1),
   (0, 1)],
  [(-166666666666666666666666666667, 25000000000000000000000000000000),
   (-166666666666666666666666666667, 25000000000000000000000000000000),
   (237001650811011612989536530167140669968288689892645739727,
    4971010198427725824000000000000000000000000000000000000000),
   (-2914715110408030588010987833339162763554149394509355309,
    466032206102599296000000000000000000000000000000000000000),
   (0, 1),
   (0, 1)]]

def S5B : List (List (Int × Int)) := [[(0, 1),
   (0, 1),
   (671585820492166666666666666668009838307651, 673351335936000000000000000000000000000000000000),
   (-5495953422833333333333333333344325240179, 42084458496000000000000000000000000000000000000),
   (0, 1),
   (0, 1)],
  [(0, 1),
   (0, 1),
   (671585820492166666666666666668009838307651, 673351335936000000000000000000000000000000000000),
   (-5495953422833333333333333333344325240179, 42084458496000000000000000000000000000000000000),
   (0, 1),
   (0, 1)],
  [(0, 1),
   (0, 1),
   (41154107493939481166666666666748974881654545629, 4363316656865280000000000000000000000000000000000000),
   (-336786529797803833333333333334006906392928941, 272707291054080000000000000000000000000000000000000),
   (0, 1),
   (0, 1)],
  [(329833333333333333333333333333993, 4147200000000000000000000000000000000),
   (-46833333333333333333333333333427, 4665600000000000000000000000000000000),
   (655146071192338918833333333334643625475718011171, 4363316656865280000000000000000000000000000000000000),
   (-5361417978995796166666666666677389502624658259, 272707291054080000000000000000000000000000000000000),
   (329833333333333333333333333333993, 4147200000000000000000000000000000000),
   (-46833333333333333333333333333427, 4665600000000000000000000000000000000)],
  [(329833333333333333333333333333993, 4147200000000000000000000000000000000),
   (-46833333333333333333333333333427, 4665600000000000000000000000000000000),
   (35594048486084833333333333333404521430305503, 224450445312000000000000000000000000000000000000),
   (-291285531410166666666666666667249237729487, 14028152832000000000000000000000000000000000000),
   (329833333333333333333333333333993, 4147200000000000000000000000000000000),
   (-46833333333333333333333333333427, 4665600000000000000000000000000000000)],
  [(329833333333333333333333333333993, 4147200000000000000000000000000000000),
   (-46833333333333333333333333333427, 4665600000000000000000000000000000000),
   (35594048486084833333333333333404521430305503, 224450445312000000000000000000000000000000000000),
   (-291285531410166666666666666667249237729487, 14028152832000000000000000000000000000000000000),
   (329833333333333333333333333333993, 4147200000000000000000000000000000000),
   (-46833333333333333333333333333427, 4665600000000000000000000000000000000)],
  [(0, 1),
   (0, 1),
   (981211420896845132713469833335295756175127023598760273,
    21209643513291630182400000000000000000000000000000000000000),
   (-6600422952876617364012166666679867512572419901394691, 1988404079371090329600000000000000000000000000000000000000),
   (0, 1),
   (0, 1)],
  [(0, 1),
   (0, 1),
   (981211420896845132713469833335295756175127023598760273,
    21209643513291630182400000000000000000000000000000000000000),
   (-6600422952876617364012166666679867512572419901394691, 1988404079371090329600000000000000000000000000000000000000),
   (0, 1),
   (0, 1)],
  [(0, 1),
   (0, 1),
   (1220062131382071069669104353328714320292712545280085860940976400455828629972948161971135314370794204133,
    23689908153236647962739334373239219876892613292075759058837162688512000000000000000000000000000000000000000),
   (-432211268799435784918295198795143907719882122517208175800753227976538399835228076504139662671345681,
    135138185010653882496035763789102254225018221804935120688265822208000000000000000000000000000000000000000),
   (0, 1),
   (0, 1)],
  [(14153833333333333333333333333361641, 82944000000000000000000000000000000),
   (15505166666666666666666666666697677, 93312000000000000000000000000000000),
   (115681772264899982320359721576838320985207847484616304879804282207369600161873284504206635469918309821467,
    23689908153236647962739334373239219876892613292075759058837162688512000000000000000000000000000000000000000),
   (-47416905512951228365264774573617734286164978995316863499035025712833704319743839334566442626490433519,
    135138185010653882496035763789102254225018221804935120688265822208000000000000000000000000000000000000000),
   (208868718833333333333333333333751070771, 64945152000000000000000000000000000000000),
   (-7331530166666666666666666666681329727, 18265824000000000000000000000000000000000)],
  [(14153833333333333333333333333361641, 82944000000000000000000000000000000),
   (15505166666666666666666666666697677, 93312000000000000000000000000000000),
   (311044020424299907070169937167288754707515266480807006541,
    63628930539874890547200000000000000000000000000000000000000),
   (-2092334076061887704391856833337518001485457108742117047,
    5965212238113270988800000000000000000000000000000000000000),
   (208868718833333333333333333333751070771, 64945152000000000000000000000000000000000),
   (-7331530166666666666666666666681329727, 18265824000000000000000000000000000000000)],
  [(14153833333333333333333333333361641, 82944000000000000000000000000000000),
   (15505166666666666666666666666697677, 93312000000000000000000000000000000),
   (311044020424299907070169937167288754707515266480807006541,
    63628930539874890547200000000000000000000000000000000000000),
   (-2092334076061887704391856833337518001485457108742117047,
    5965212238113270988800000000000000000000000000000000000000),
   (208868718833333333333333333333751070771, 64945152000000000000000000000000000000000),
   (-7331530166666666666666666666681329727, 18265824000000000000000000000000000000000)],
  [(0, 1), (0, 1), (0, 1), (0, 1), (0, 1), (0, 1)],
  [(0, 1), (0, 1), (0, 1), (0, 1), (0, 1), (0, 1)],
  [(0, 1),
   (0, 1),
   (-1714198514023369451654261342371021389712291763666729181789025352652035156716193507984875247,
    8461049901585946186177983283200395596115604180906248267366400000000000000000000000000000000000),
   (793631033957384242165600979362679123392543163628659531028555517055982590123621989991473,
    32177159421325917757113139199999797663813090462599743078400000000000000000000000000000000000),
   (0, 1),
   (0, 1)],
  [(0, 1),
   (0, 1),
   (-108094190466000042963258765412440229475937405469646929447085330915523344144100774157165855099,
    8461049901585946186177983283200395596115604180906248267366400000000000000000000000000000000000),
   (53885357693425542862623780674246335022030988892271571659585443795279954942279759314863141,
    32177159421325917757113139199999797663813090462599743078400000000000000000000000000000000000),
   (0, 1),
   (0, 1)],
  [(0, 1), (0, 1), (0, 1), (0, 1), (0, 1), (0, 1)],
  [(0, 1), (0, 1), (0, 1), (0, 1), (0, 1), (0, 1)],
  [(0, 1),
   (0, 1),
   (237001650811011612989536530167140669968288689892645739727,
    530241087832290754560000000000000000000000000000000000000000),
   (-2914715110408030588010987833339162763554149394509355309,
    49710101984277258240000000000000000000000000000000000000000),
   (0, 1),
   (0, 1)],
  [(0, 1),
   (0, 1),
   (237001650811011612989536530167140669968288689892645739727,
    530241087832290754560000000000000000000000000000000000000000),
   (-2914715110408030588010987833339162763554149394509355309,
    49710101984277258240000000000000000000000000000000000000000),
   (0, 1),
   (0, 1)],
  [(0, 1),
   (0, 1),
   (1760411075559523936414305283682456958645811773000221585591282585504292866717088119283381182759795940295867,
    592247703830916199068483359330980496922315332301893976470929067212800000000000000000000000000000000000000000),
   (-1315371754361704343134613552233036434556825554813153719972773535202215030458920435652403292114306904319,
    3378454625266347062400894094727556355625455545123378017206645555200000000000000000000000000000000000000000),
   (0, 1),
   (0, 1)],
  [(35321166666666666666666666666737309, 2073600000000000000000000000000000000),
   (-22530166666666666666666666666711727, 2332800000000000000000000000000000000),
   (26476039443361895242532787964901040108431293868111277570107662908558433646088419090655022600131665355678533,
    592247703830916199068483359330980496922315332301893976470929067212800000000000000000000000000000000000000000),
   (-19814568659936198007354345841326830696284698442883603191496661049916921225927071122332961506626931316481,
    3378454625266347062400894094727556355625455545123378017206645555200000000000000000000000000000000000000000),
   (38530056281166666666666666666743726779229, 1623628800000000000000000000000000000000000),
   (-1367812219833333333333333333336068957773, 456645600000000000000000000000000000000000)],
  [(35321166666666666666666666666737309, 2073600000000000000000000000000000000),
   (-22530166666666666666666666666711727, 2332800000000000000000000000000000000),
   (75129523307090681317683080062983592379947514695968699493459,
    1590723263496872263680000000000000000000000000000000000000000),
   (-923964689999345696399483143168514596046665358059465632953,
    149130305952831774720000000000000000000000000000000000000000),
   (38530056281166666666666666666743726779229, 1623628800000000000000000000000000000000000),
   (-1367812219833333333333333333336068957773, 456645600000000000000000000000000000000000)],
  [(35321166666666666666666666666737309, 2073600000000000000000000000000000000),
   (-22530166666666666666666666666711727, 2332800000000000000000000000000000000),
   (75129523307090681317683080062983592379947514695968699493459,
    1590723263496872263680000000000000000000000000000000000000000),
   (-923964689999345696399483143168514596046665358059465632953,
    149130305952831774720000000000000000000000000000000000000000),
   (38530056281166666666666666666743726779229, 1623628800000000000000000000000000000000000),
   (-1367812219833333333333333333336068957773, 456645600000000000000000000000000000000000)]]

def S6A : List (List (Int × Int)) := [[(0, 1), (0, 1), (0, 1), (0, 1), (0, 1), (0, 1)],
  [(0, 1), (0, 1), (0, 1), (0, 1), (0, 1), (0, 1)],
  [(0, 1),
   (0, 1),
   (9115730510887015212166666666684898127688440697091, 349065332549222400000000000000000000000000000000000000),
   (-74598999523576302833333333333482531332380485939, 21816583284326400000000000000000000000000000000000000),
   (0, 1),
   (0, 1)],
  [(0, 1),
   (0, 1),
   (46588283784015256787833333333426509900901363846909, 349065332549222400000000000000000000000000000000000000),
   (-381257361179911697166666666667429181389026490061, 21816583284326400000000000000000000000000000000000000),
   (0, 1),
   (0, 1)],
  [(0, 1),
   (0, 1),
   (671585820492166666666666666668009838307651, 4208445849600000000000000000000000000000000000),
   (-5495953422833333333333333333344325240179, 263027865600000000000000000000000000000000000),
   (0, 1),
   (0, 1)],
  [(0, 1),
   (0, 1),
   (671585820492166666666666666668009838307651, 4208445849600000000000000000000000000000000000),
   (-5495953422833333333333333333344325240179, 263027865600000000000000000000000000000000000),
   (0, 1),
   (0, 1)],
  [(0, 1), (0, 1), (0, 1), (0, 1), (0, 1), (0, 1)],
  [(0, 1), (0, 1), (0, 1), (0, 1), (0, 1), (0, 1)],
  [(0, 1),
   (0, 1),
   (240838412588599241769189880705570597390066934130799166569997575931994996578461188240283841462848397100881,
    3790385304517863674038293499718275180302818126732121449413946030161920000000000000000000000000000000000000000),
   (-66670620547479458408263340445267935746543763498461568581494701716162189442496623417134542198387635917,
    21622109601704621199365722206256360676002915488789619310122531553280000000000000000000000000000000000000000),
   (0, 1),
   (0, 1)],
  [(166666666666666666666666666667, 1000000000000000000000000000000),
   (166666666666666666666666666667, 1000000000000000000000000000000),
   (18463455090816529300635422268121155051490022670652623351949243801320073610116936038348159484023408246995119,
    3790385304517863674038293499718275180302818126732121449413946030161920000000000000000000000000000000000000000),
   (-7589188064532626805621027823140792575275034015354989899392229928813476645690154162354158624067497036083,
    21622109601704621199365722206256360676002915488789619310122531553280000000000000000000000000000000000000000),
   (0, 1),
   (0, 1)],
  [(166666666666666666666666666667, 1000000000000000000000000000000),
   (166666666666666666666666666667, 1000000000000000000000000000000),
   (981211420896845132713469833335295756175127023598760273, 198840407937109032960000000000000000000000000000000000000),
   (-6600422952876617364012166666679867512572419901394691, 18641288244103971840000000000000000000000000000000000000),
   (0, 1),
   (0, 1)],
  [(166666666666666666666666666667, 1000000000000000000000000000000),
   (166666666666666666666666666667, 1000000000000000000000000000000),
   (981211420896845132713469833335295756175127023598760273, 198840407937109032960000000000000000000000000000000000000),
   (-6600422952876617364012166666679867512572419901394691, 18641288244103971840000000000000000000000000000000000000),
   (0, 1),
   (0, 1)],
  [(0, 1), (0, 1), (0, 1), (0, 1), (0, 1), (0, 1)],
  [(0, 1), (0, 1), (0, 1), (0, 1), (0, 1), (0, 1)],
  [(0, 1),
   (0, 1),
   (-31631287463841776886401196329426249636962374250812983929684662848957402714727413696407385207083,
    18050239790050018530513031004160843938379955585933329637048320000000000000000000000000000000000000),
   (15184009509415524207085105202334943294476053910262900791724774317217581112390364127829306997,
    68644606765495291215174696959999568349467926320212785233920000000000000000000000000000000000000),
   (0, 1),
   (0, 1)],
  [(0, 1),
   (0, 1),
   (-437380710789969797891738621878389883000415950428669694914680725728324338688332439102008518057637,
    18050239790050018530513031004160843938379955585933329637048320000000000000000000000000000000000000),
   (218360094030733110775887271298750676342219680412290940222757702745641649761714811664693655483,
    68644606765495291215174696959999568349467926320212785233920000000000000000000000000000000000000),
   (0, 1),
   (0, 1)],
  [(0, 1), (0, 1), (0, 1), (0, 1), (0, 1), (0, 1)],
  [(0, 1), (0, 1), (0, 1), (0, 1), (0, 1), (0, 1)],
  [(0, 1), (0, 1), (0, 1), (0, 1), (0, 1), (0, 1)],
  [(0, 1), (0, 1), (0, 1), (0, 1), (0, 1), (0, 1)],
  [(0, 1),
   (0, 1),
   (754387866416637825301352550407206532154883957476058425777771919975900894396543744774687254382259446919399119,
    94759632612946591850957337492956879507570453168303036235348650754048000000000000000000000000000000000000000000),
   (-563583358689463425511073639292686767929047412232139784043052722434188810678928901940195605873130197614083,
    540552740042615529984143055156409016900072887219740482753063288832000000000000000000000000000000000000000000),
   (0, 1),
   (0, 1)],
  [(-166666666666666666666666666667, 25000000000000000000000000000000),
   (-166666666666666666666666666667, 25000000000000000000000000000000),
   (3763444216610789243330182369366152998577452945101781439134059359074135347652337408815457350880374360436504881,
    94759632612946591850957337492956879507570453168303036235348650754048000000000000000000000000000000000000000000),
   (-2817207107598200950567159863676891973005596427399341321792056811184872990342829747337462761925467917713917,
    540552740042615529984143055156409016900072887219740482753063288832000000000000000000000000000000000000000000),
   (0, 1),
   (0, 1)],
  [(-166666666666666666666666666667, 25000000000000000000000000000000),
   (-166666666666666666666666666667, 25000000000000000000000000000000),
   (237001650811011612989536530167140669968288689892645739727,
    4971010198427725824000000000000000000000000000000000000000),
   (-2914715110408030588010987833339162763554149394509355309,
    466032206102599296000000000000000000000000000000000000000),
   (0, 1),
   (0, 1)],
  [(-166666666666666666666666666667, 25000000000000000000000000000000),
   (-166666666666666666666666666667, 25000000000000000000000000000000),
   (237001650811011612989536530167140669968288689892645739727,
    4971010198427725824000000000000000000000000000000000000000),
   (-2914715110408030588010987833339162763554149394509355309,
    466032206102599296000000000000000000000000000000000000000),
   (0, 1),
   (0, 1)]]

def S6B : List (List (Int × Int)) := [[(0, 1),
   (0, 1),
   (41154107493939481166666666666748974881654545629, 4363316656865280000000000000000000000000000000000000),
   (-336786529797803833333333333334006906392928941, 272707291054080000000000000000000000000000000000000),
   (0, 1),
   (0, 1)],
  [(0, 1),
   (0, 1),
   (41154107493939481166666666666748974881654545629, 4363316656865280000000000000000000000000000000000000),
   (-336786529797803833333333333334006906392928941, 272707291054080000000000000000000000000000000000000),
   (0, 1),
   (0, 1)],
  [(0, 1),
   (0, 1),
   (41154107493939481166666666666748974881654545629, 4363316656865280000000000000000000000000000000000000),
   (-336786529797803833333333333334006906392928941, 272707291054080000000000000000000000000000000000000),
   (0, 1),
   (0, 1)],
  [(329833333333333333333333333333993, 4147200000000000000000000000000000000),
   (-46833333333333333333333333333427, 4665600000000000000000000000000000000),
   (655146071192338918833333333334643625475718011171, 4363316656865280000000000000000000000000000000000000),
   (-5361417978995796166666666666677389502624658259, 272707291054080000000000000000000000000000000000000),
   (329833333333333333333333333333993, 4147200000000000000000000000000000000),
   (-46833333333333333333333333333427, 4665600000000000000000000000000000000)],
  [(329833333333333333333333333333993, 4147200000000000000000000000000000000),
   (-46833333333333333333333333333427, 4665600000000000000000000000000000000),
   (655146071192338918833333333334643625475718011171, 4363316656865280000000000000000000000000000000000000),
   (-5361417978995796166666666666677389502624658259, 272707291054080000000000000000000000000000000000000),
   (329833333333333333333333333333993, 4147200000000000000000000000000000000),
   (-46833333333333333333333333333427, 4665600000000000000000000000000000000)],
  [(329833333333333333333333333333993, 4147200000000000000000000000000000000),
   (-46833333333333333333333333333427, 4665600000000000000000000000000000000),
   (655146071192338918833333333334643625475718011171, 4363316656865280000000000000000000000000000000000000),
   (-5361417978995796166666666666677389502624658259, 272707291054080000000000000000000000000000000000000),
   (329833333333333333333333333333993, 4147200000000000000000000000000000000),
   (-46833333333333333333333333333427, 4665600000000000000000000000000000000)],
  [(0, 1),
   (0, 1),
   (1220062131382071069669104353328714320292712545280085860940976400455828629972948161971135314370794204133,
    23689908153236647962739334373239219876892613292075759058837162688512000000000000000000000000000000000000000),
   (-432211268799435784918295198795143907719882122517208175800753227976538399835228076504139662671345681,
    135138185010653882496035763789102254225018221804935120688265822208000000000000000000000000000000000000000),
   (0, 1),
   (0, 1)],
  [(0, 1),
   (0, 1),
   (1220062131382071069669104353328714320292712545280085860940976400455828629972948161971135314370794204133,
    23689908153236647962739334373239219876892613292075759058837162688512000000000000000000000000000000000000000),
   (-432211268799435784918295198795143907719882122517208175800753227976538399835228076504139662671345681,
    135138185010653882496035763789102254225018221804935120688265822208000000000000000000000000000000000000000),
   (0, 1),
   (0, 1)],
  [(0, 1),
   (0, 1),
   (1220062131382071069669104353328714320292712545280085860940976400455828629972948161971135314370794204133,
    23689908153236647962739334373239219876892613292075759058837162688512000000000000000000000000000000000000000),
   (-432211268799435784918295198795143907719882122517208175800753227976538399835228076504139662671345681,
    135138185010653882496035763789102254225018221804935120688265822208000000000000000000000000000000000000000),
   (0, 1),
   (0, 1)],
  [(14153833333333333333333333333361641, 82944000000000000000000000000000000),
   (15505166666666666666666666666697677, 93312000000000000000000000000000000),
   (115681772264899982320359721576838320985207847484616304879804282207369600161873284504206635469918309821467,
    23689908153236647962739334373239219876892613292075759058837162688512000000000000000000000000000000000000000),
   (-47416905512951228365264774573617734286164978995316863499035025712833704319743839334566442626490433519,
    135138185010653882496035763789102254225018221804935120688265822208000000000000000000000000000000000000000),
   (208868718833333333333333333333751070771, 64945152000000000000000000000000000000000),
   (-7331530166666666666666666666681329727, 18265824000000000000000000000000000000000)],
  [(14153833333333333333333333333361641, 82944000000000000000000000000000000),
   (15505166666666666666666666666697677, 93312000000000000000000000000000000),
   (115681772264899982320359721576838320985207847484616304879804282207369600161873284504206635469918309821467,
    23689908153236647962739334373239219876892613292075759058837162688512000000000000000000000000000000000000000),
   (-47416905512951228365264774573617734286164978995316863499035025712833704319743839334566442626490433519,
    135138185010653882496035763789102254225018221804935120688265822208000000000000000000000000000000000000000),
   (208868718833333333333333333333751070771, 64945152000000000000000000000000000000000),
   (-7331530166666666666666666666681329727, 18265824000000000000000000000000000000000)],
  [(14153833333333333333333333333361641, 82944000000000000000000000000000000),
   (15505166666666666666666666666697677, 93312000000000000000000000000000000),
   (115681772264899982320359721576838320985207847484616304879804282207369600161873284504206635469918309821467,
    23689908153236647962739334373239219876892613292075759058837162688512000000000000000000000000000000000000000),
   (-47416905512951228365264774573617734286164978995316863499035025712833704319743839334566442626490433519,
    135138185010653882496035763789102254225018221804935120688265822208000000000000000000000000000000000000000),
   (208868718833333333333333333333751070771, 64945152000000000000000000000000000000000),
   (-7331530166666666666666666666681329727, 18265824000000000000000000000000000000000)],
  [(0, 1), (0, 1), (0, 1), (0, 1), (0, 1), (0, 1)],
  [(0, 1), (0, 1), (0, 1), (0, 1), (0, 1), (0, 1)],
  [(0, 1),
   (0, 1),
   (-1714198514023369451654261342371021389712291763666729181789025352652035156716193507984875247,
    8461049901585946186177983283200395596115604180906248267366400000000000000000000000000000000000),
   (793631033957384242165600979362679123392543163628659531028555517055982590123621989991473,
    32177159421325917757113139199999797663813090462599743078400000000000000000000000000000000000),
   (0, 1),
   (0, 1)],
  [(0, 1),
   (0, 1),
   (-108094190466000042963258765412440229475937405469646929447085330915523344144100774157165855099,
    8461049901585946186177983283200395596115604180906248267366400000000000000000000000000000000000),
   (53885357693425542862623780674246335022030988892271571659585443795279954942279759314863141,
    32177159421325917757113139199999797663813090462599743078400000000000000000000000000000000000),
   (0, 1),
   (0, 1)],
  [(0, 1), (0, 1), (0, 1), (0, 1), (0, 1), (0, 1)],
  [(0, 1), (0, 1), (0, 1), (0, 1), (0, 1), (0, 1)],
  [(0, 1),
   (0, 1),
   (1760411075559523936414305283682456958645811773000221585591282585504292866717088119283381182759795940295867,
    592247703830916199068483359330980496922315332301893976470929067212800000000000000000000000000000000000000000),
   (-1315371754361704343134613552233036434556825554813153719972773535202215030458920435652403292114306904319,
    3378454625266347062400894094727556355625455545123378017206645555200000000000000000000000000000000000000000),
   (0, 1),
   (0, 1)],
  [(0, 1),
   (0, 1),
   (1760411075559523936414305283682456958645811773000221585591282585504292866717088119283381182759795940295867,
    592247703830916199068483359330980496922315332301893976470929067212800000000000000000000000000000000000000000),
   (-1315371754361704343134613552233036434556825554813153719972773535202215030458920435652403292114306904319,
    3378454625266347062400894094727556355625455545123378017206645555200000000000000000000000000000000000000000),
   (0, 1),
   (0, 1)],
  [(0, 1),
   (0, 1),
   (1760411075559523936414305283682456958645811773000221585591282585504292866717088119283381182759795940295867,
    592247703830916199068483359330980496922315332301893976470929067212800000000000000000000000000000000000000000),
   (-1315371754361704343134613552233036434556825554813153719972773535202215030458920435652403292114306904319,
    3378454625266347062400894094727556355625455545123378017206645555200000000000000000000000000000000000000000),
   (0, 1),
   (0, 1)],
  [(35321166666666666666666666666737309, 2073600000000000000000000000000000000),
   (-22530166666666666666666666666711727, 2332800000000000000000000000000000000),
   (26476039443361895242532787964901040108431293868111277570107662908558433646088419090655022600131665355678533,
    592247703830916199068483359330980496922315332301893976470929067212800000000000000000000000000000000000000000),
   (-19814568659936198007354345841326830696284698442883603191496661049916921225927071122332961506626931316481,
    3378454625266347062400894094727556355625455545123378017206645555200000000000000000000000000000000000000000),
   (38530056281166666666666666666743726779229, 1623628800000000000000000000000000000000000),
   (-1367812219833333333333333333336068957773, 456645600000000000000000000000000000000000)],
  [(35321166666666666666666666666737309, 2073600000000000000000000000000000000),
   (-22530166666666666666666666666711727, 2332800000000000000000000000000000000),
   (26476039443361895242532787964901040108431293868111277570107662908558433646088419090655022600131665355678533,
    592247703830916199068483359330980496922315332301893976470929067212800000000000000000000000000000000000000000),
   (-19814568659936198007354345841326830696284698442883603191496661049916921225927071122332961506626931316481,
    3378454625266347062400894094727556355625455545123378017206645555200000000000000000000000000000000000000000),
   (38530056281166666666666666666743726779229, 1623628800000000000000000000000000000000000),
   (-1367812219833333333333333333336068957773, 456645600000000000000000000000000000000000)],
  [(35321166666666666666666666666737309, 2073600000000000000000000000000000000),
   (-22530166666666666666666666666711727, 2332800000000000000000000000000000000),
   (26476039443361895242532787964901040108431293868111277570107662908558433646088419090655022600131665355678533,
    592247703830916199068483359330980496922315332301893976470929067212800000000000000000000000000000000000000000),
   (-19814568659936198007354345841326830696284698442883603191496661049916921225927071122332961506626931316481,
    3378454625266347062400894094727556355625455545123378017206645555200000000000000000000000000000000000000000),
   (38530056281166666666666666666743726779229, 1623628800000000000000000000000000000000000),
   (-1367812219833333333333333333336068957773, 456645600000000000000000000000000000000000)]]


end MW

namespace MW

/-! ## Basic frame lemmas: the halo routines write only halo cells -/

theorem halo_x_periodic_interior (c : Cfg) (s : St) (ll k i : ℕ)
    (h1 : hs ≤ i) (h2 : i < c.nx + hs) :
    halo_x_periodic c s ll k i = s ll k i := by
  simp only [halo_x_periodic, hs] at *
  split_ifs <;> first | rfl | omega

theorem halo_x_inject_interior (c : Cfg) (hy : Hydro) (s1 : St) (ll k i : ℕ)
    (h1 : hs ≤ i) :
    halo_x_inject c hy s1 ll k i = s1 ll k i := by
  simp only [halo_x_inject, hs] at *
  split_ifs with h
  · exact absurd h.2.2.1 (by omega)
  · exact absurd h.2.2.1 (by omega)
  · exact absurd h.2.2.1 (by omega)
  · rfl

theorem set_halo_values_x_interior (c : Cfg) (hy : Hydro) (s : St) (ll k i : ℕ)
    (h1 : hs ≤ i) (h2 : i < c.nx + hs) :
    set_halo_values_x c hy s ll k i = s ll k i := by
  unfold set_halo_values_x
  split_ifs
  · rw [halo_x_inject_interior c hy _ ll k i h1,
      halo_x_periodic_interior c s ll k i h1 h2]
  · exact halo_x_periodic_interior c s ll k i h1 h2

theorem set_halo_values_z_interior (c : Cfg) (hy : Hydro) (s : St) (ll k i : ℕ)
    (h1 : hs ≤ k) (h2 : k < c.nz + hs) :
    set_halo_values_z c hy s ll k i = s ll k i := by
  simp only [set_halo_values_z, hs] at *
  split_ifs <;> first | rfl | omega

theorem halo_dir_interior (c : Cfg) (hy : Hydro) (dir : ℤ) (s : St) (ll k i : ℕ)
    (hk1 : hs ≤ k) (hk2 : k < c.nz + hs) (hi1 : hs ≤ i) (hi2 : i < c.nx + hs) :
    halo_dir c hy dir s ll k i = s ll k i := by
  unfold halo_dir
  split_ifs
  · exact set_halo_values_x_interior c hy s ll k i hi1 hi2
  · exact set_halo_values_z_interior c hy s ll k i hk1 hk2
  · rfl

/-! ## Closed forms of the fused state-update loop -/

theorem apply_tendencies_fst (c : Cfg) (gw : Bool) (wh : ℕ → ℕ → ℚ) (dtq : ℚ)
    (sInit : St) (td0 : Td) (out0 : St) (l k i : ℕ) :
    (apply_tendencies c gw wh dtq sInit td0 out0).1 l k i =
      td0 l k i +
        (if gw = true ∧ l = ID_WMOM ∧ k < c.nz ∧ i < c.nx then 4 * wh k i else 0) := by
  simp only [apply_tendencies, List.foldl_cons, List.foldl_nil, var_sweep]
  split_ifs with h
  · ring
  · ring

theorem var_sweep_fst (c : Cfg) (gw : Bool) (wh : ℕ → ℕ → ℚ) (dtq : ℚ)
    (sInit : St) (lsw : ℕ) (p : Td × St) (l k i : ℕ) :
    (var_sweep c gw wh dtq sInit lsw p).1 l k i =
      p.1 l k i + (if gw = true ∧ l = ID_WMOM ∧ k < c.nz ∧ i < c.nx then wh k i else 0) := by
  simp only [var_sweep]
  split_ifs <;> simp

theorem var_sweep_snd_ne (c : Cfg) (gw : Bool) (wh : ℕ → ℕ → ℚ) (dtq : ℚ)
    (sInit : St) (lsw : ℕ) (p : Td × St) (l k i : ℕ)
    (hne : ¬(l = lsw ∧ hs ≤ k ∧ k < c.nz + hs ∧ hs ≤ i ∧ i < c.nx + hs)) :
    (var_sweep c gw wh dtq sInit lsw p).2 l k i = p.2 l k i := by
  simp only [var_sweep]
  rw [if_neg hne]

theorem var_sweep_snd_eq (c : Cfg) (gw : Bool) (wh : ℕ → ℕ → ℚ) (dtq : ℚ)
    (sInit : St) (lsw : ℕ) (p : Td × St) (l k i : ℕ)
    (hB : l = lsw ∧ hs ≤ k ∧ k < c.nz + hs ∧ hs ≤ i ∧ i < c.nx + hs) :
    (var_sweep c gw wh dtq sInit lsw p).2 l k i =
      sInit l k i + dtq * (var_sweep c gw wh dtq sInit lsw p).1 l (k - hs) (i - hs) := by
  conv_lhs => simp only [var_sweep]
  conv_rhs => simp only [var_sweep]
  rw [if_pos hB]

theorem apply_tendencies_snd (c : Cfg) (gw : Bool) (wh : ℕ → ℕ → ℚ) (dtq : ℚ)
    (sInit : St) (td0 : Td) (out0 : St) (ll k i : ℕ) :
    (apply_tendencies c gw wh dtq sInit td0 out0).2 ll k i =
      if ll < NUM_VARS ∧ hs ≤ k ∧ k < c.nz + hs ∧ hs ≤ i ∧ i < c.nx + hs then
        sInit ll k i + dtq * (td0 ll (k - hs) (i - hs) +
          if gw = true ∧ ll = ID_WMOM then 3 * wh (k - hs) (i - hs) else 0)
      else out0 ll k i := by
  have e : apply_tendencies c gw wh dtq sInit td0 out0 =
      var_sweep c gw wh dtq sInit 3 (var_sweep c gw wh dtq sInit 2
        (var_sweep c gw wh dtq sInit 1 (var_sweep c gw wh dtq sInit 0 (td0, out0)))) := rfl
  rw [e]
  by_cases hB : hs ≤ k ∧ k < c.nz + hs ∧ hs ≤ i ∧ i < c.nx + hs
  · by_cases h4 : ll < NUM_VARS
    · rw [if_pos ⟨h4, hB.1, hB.2.1, hB.2.2.1, hB.2.2.2⟩]
      have hkk : k - hs < c.nz := by simp only [hs] at hB ⊢; omega
      have hii : i - hs < c.nx := by simp only [hs] at hB ⊢; omega
      simp only [NUM_VARS] at h4
      interval_cases ll
      · rw [var_sweep_snd_ne _ _ _ _ _ _ _ _ _ _ (by simp),
          var_sweep_snd_ne _ _ _ _ _ _ _ _ _ _ (by simp),
          var_sweep_snd_ne _ _ _ _ _ _ _ _ _ _ (by simp),
          var_sweep_snd_eq _ _ _ _ _ _ _ _ _ _ ⟨rfl, hB.1, hB.2.1, hB.2.2.1, hB.2.2.2⟩,
          var_sweep_fst]
        simp only [ID_WMOM]
        norm_num
      · rw [var_sweep_snd_ne _ _ _ _ _ _ _ _ _ _ (by simp),
          var_sweep_snd_ne _ _ _ _ _ _ _ _ _ _ (by simp),
          var_sweep_snd_eq _ _ _ _ _ _ _ _ _ _ ⟨rfl, hB.1, hB.2.1, hB.2.2.1, hB.2.2.2⟩,
          var_sweep_fst, var_sweep_fst]
        simp only [ID_WMOM]
        norm_num
      · rw [var_sweep_snd_ne _ _ _ _ _ _ _ _ _ _ (by simp),
          var_sweep_snd_eq _ _ _ _ _ _ _ _ _ _ ⟨rfl, hB.1, hB.2.1, hB.2.2.1, hB.2.2.2⟩,
          var_sweep_fst, var_sweep_fst, var_sweep_fst]
        simp only [ID_WMOM, hkk, hii]
        rcases gw with _ | _ <;> simp
        exact Or.inl (by ring)
      · rw [var_sweep_snd_eq _ _ _ _ _ _ _ _ _ _ ⟨rfl, hB.1, hB.2.1, hB.2.2.1, hB.2.2.2⟩,
          var_sweep_fst, var_sweep_fst, var_sweep_fst, var_sweep_fst]
        simp only [ID_WMOM]
        norm_num
    · rw [if_neg (by tauto)]
      rw [var_sweep_snd_ne _ _ _ _ _ _ _ _ _ _ (by simp only [NUM_VARS] at h4; omega),
        var_sweep_snd_ne _ _ _ _ _ _ _ _ _ _ (by simp only [NUM_VARS] at h4; omega),
        var_sweep_snd_ne _ _ _ _ _ _ _ _ _ _ (by simp only [NUM_VARS] at h4; omega),
        var_sweep_snd_ne _ _ _ _ _ _ _ _ _ _ (by simp only [NUM_VARS] at h4; omega)]
  · rw [if_neg (by tauto)]
    rw [var_sweep_snd_ne _ _ _ _ _ _ _ _ _ _ (by tauto),
      var_sweep_snd_ne _ _ _ _ _ _ _ _ _ _ (by tauto),
      var_sweep_snd_ne _ _ _ _ _ _ _ _ _ _ (by tauto),
      var_sweep_snd_ne _ _ _ _ _ _ _ _ _ _ (by tauto)]

theorem WEqP_trans {c : Cfg} {a b d : St} (h1 : WEqP c a b) (h2 : WEqP c b d) :
    WEqP c a d := by
  intro ll hll k hk i hi
  rw [h1 ll hll k hk i hi, h2 ll hll k hk i hi]

theorem MEqP_trans {c : Cfg} {a b d : Mem} (h1 : MEqP c a b) (h2 : MEqP c b d) :
    MEqP c a d :=
  ⟨WEqP_trans h1.1 h2.1, WEqP_trans h1.2 h2.2⟩

theorem stencil_x_congr {c : Cfg} {s s' : St} (h : WEqP c s s') {k i : ℕ}
    (hk : k < c.nz) (hi : i ≤ c.nx) :
    stencil_x s k i = stencil_x s' k i := by
  unfold stencil_x
  refine List.map_congr_left fun l hl => ?_
  refine List.map_congr_left fun j hj => ?_
  rw [List.mem_range] at hl hj
  simp only [NUM_VARS, sten_size] at hl hj
  exact h l (by simpa [NUM_VARS] using hl) (k + hs) (by simp only [hs]; omega)
    (i + j) (by simp only [hs]; omega)

theorem stencil_z_congr {c : Cfg} {s s' : St} (h : WEqP c s s') {k i : ℕ}
    (hk : k ≤ c.nz) (hi : i < c.nx) :
    stencil_z s k i = stencil_z s' k i := by
  unfold stencil_z
  refine List.map_congr_left fun l hl => ?_
  refine List.map_congr_left fun j hj => ?_
  rw [List.mem_range] at hl hj
  simp only [NUM_VARS, sten_size] at hl hj
  exact h l (by simpa [NUM_VARS] using hl) (k + j) (by simp only [hs]; omega)
    (i + hs) (by simp only [hs]; omega)

theorem tend_x_congr_pt (P : Prims) (c : Cfg) (hy : Hydro) (dtq : ℚ)
    {s s' : St} (h : WEqP c s s') (ll : ℕ) {k i : ℕ} (hk : k < c.nz) (hi : i < c.nx) :
    tend_x P c hy dtq s ll k i = tend_x P c hy dtq s' ll k i := by
  unfold tend_x flux_x
  rw [stencil_x_congr h hk (by omega), stencil_x_congr h hk (by omega)]

theorem tend_z_congr_pt (P : Prims) (c : Cfg) (hy : Hydro) (dtq : ℚ)
    {s s' : St} (h : WEqP c s s') (ll : ℕ) {k i : ℕ} (hk : k < c.nz) (hi : i < c.nx) :
    tend_z P c hy dtq s ll k i = tend_z P c hy dtq s' ll k i := by
  unfold tend_z flux_z
  rw [stencil_z_congr h (by omega) hi, stencil_z_congr h (by omega) hi,
    h ID_DENS (by simp [ID_DENS, NUM_VARS]) (k + hs) (by simp only [hs]; omega)
      (i + hs) (by simp only [hs]; omega)]

theorem halo_x_periodic_congr {c : Cfg} {s s' : St} (h : WEqP c s s') :
    WEqP c (halo_x_periodic c s) (halo_x_periodic c s') := by
  intro ll hll k hk i hi
  simp only [halo_x_periodic]
  simp only [NUM_VARS, hs] at *
  split_ifs <;> apply h <;> simp only [NUM_VARS, hs] <;> omega

theorem halo_x_inject_congr {c : Cfg} (hy : Hydro) {s s' : St} (h : WEqP c s s') :
    WEqP c (halo_x_inject c hy s) (halo_x_inject c hy s') := by
  intro ll hll k hk i hi
  simp only [halo_x_inject]
  have hd : s ID_DENS k i = s' ID_DENS k i :=
    h ID_DENS (by simp [ID_DENS, NUM_VARS]) k hk i hi
  have he : s ll k i = s' ll k i := h ll hll k hk i hi
  split_ifs <;> simp_all

theorem set_halo_values_x_congr {c : Cfg} (hy : Hydro) {s s' : St} (h : WEqP c s s') :
    WEqP c (set_halo_values_x c hy s) (set_halo_values_x c hy s') := by
  unfold set_halo_values_x
  split_ifs
  · exact halo_x_inject_congr hy (halo_x_periodic_congr h)
  · exact halo_x_periodic_congr h

theorem set_halo_values_z_congr {c : Cfg} (hy : Hydro) {s s' : St} (h : WEqP c s s') :
    WEqP c (set_halo_values_z c hy s) (set_halo_values_z c hy s') := by
  intro ll hll k hk i hi
  simp only [set_halo_values_z]
  split_ifs <;> first
    | rfl
    | (apply h <;> simp only [NUM_VARS, hs] at * <;> omega)
    | (rw [h ll hll _ (by simp only [NUM_VARS, hs] at *; omega) i hi])

theorem halo_dir_congr {c : Cfg} (hy : Hydro) (dir : ℤ) {s s' : St} (h : WEqP c s s') :
    WEqP c (halo_dir c hy dir s) (halo_dir c hy dir s') := by
  unfold halo_dir
  split_ifs
  · exact set_halo_values_x_congr hy h
  · exact set_halo_values_z_congr hy h
  · exact h

theorem rhs_tend_congr_pt (P : Prims) (c : Cfg) (hy : Hydro) (dtq : ℚ) (dir : ℤ)
    {s s' : St} (h : WEqP c s s') (ll : ℕ) {k i : ℕ} (hk : k < c.nz) (hi : i < c.nx) :
    rhs_tend P c hy dtq dir s ll k i = rhs_tend P c hy dtq dir s' ll k i := by
  unfold rhs_tend
  split_ifs
  · exact tend_x_congr_pt P c hy dtq (set_halo_values_x_congr hy h) ll hk hi
  · exact tend_z_congr_pt P c hy dtq (set_halo_values_z_congr hy h) ll hk hi
  · rfl

theorem halo_phase_congr {c : Cfg} (hy : Hydro) (dir : ℤ) (bF : Bool) {m m' : Mem}
    (h : MEqP c m m') :
    MEqP c (halo_phase c hy dir bF m) (halo_phase c hy dir bF m') := by
  have key : ∀ b : Bool, WEqP c (m b) (m' b) := by
    intro b
    cases b
    · exact h.1
    · exact h.2
  have main : ∀ b : Bool,
      WEqP c (halo_phase c hy dir bF m b) (halo_phase c hy dir bF m' b) := by
    intro b
    unfold halo_phase
    split_ifs
    · exact halo_dir_congr hy dir (key bF)
    · exact key b
  exact ⟨main false, main true⟩

theorem sds_congr (P : Prims) (c : Cfg) (hy : Hydro) (bI bF bO : Bool)
    (dtq : ℚ) (dir : ℤ) {m m' : Mem} (h : MEqP c m m') :
    MEqP c (sds P c hy bI bF bO dtq dir m) (sds P c hy bI bF bO dtq dir m') := by
  have key : ∀ b : Bool, WEqP c (m b) (m' b) := by
    intro b; cases b
    · exact h.1
    · exact h.2
  have h1 := halo_phase_congr hy dir bF h
  have key1 : ∀ b : Bool, WEqP c (halo_phase c hy dir bF m b) (halo_phase c hy dir bF m' b) := by
    intro b; cases b
    · exact h1.1
    · exact h1.2
  have main : ∀ b : Bool, WEqP c (sds P c hy bI bF bO dtq dir m b)
      (sds P c hy bI bF bO dtq dir m' b) := by
    intro b
    intro ll hll k hk i hi
    show (semi_discrete_step P c hy bI bF bO dtq dir m).1 b ll k i =
      (semi_discrete_step P c hy bI bF bO dtq dir m').1 b ll k i
    simp only [semi_discrete_step]
    by_cases hb : b = bO
    · simp only [hb, eq_self_iff_true, if_true]
      rw [apply_tendencies_snd, apply_tendencies_snd]
      by_cases hc : ll < NUM_VARS ∧ hs ≤ k ∧ k < c.nz + hs ∧ hs ≤ i ∧ i < c.nx + hs
      · rw [if_pos hc, if_pos hc]
        have hkk : k - hs < c.nz := by simp only [hs] at *; omega
        have hii : i - hs < c.nx := by simp only [hs] at *; omega
        rw [key1 bI ll hll k hk i hi, rhs_tend_congr_pt P c hy dtq dir (key bF) ll hkk hii]
      · rw [if_neg hc, if_neg hc]
        exact key1 bO ll hll k hk i hi
    · simp only [if_neg hb]
      exact key1 b ll hll k hk i hi
  exact ⟨main false, main true⟩

theorem massOf_congr (c : Cfg) (hy : Hydro) {s s' : St} (h : WEqP c s s') :
    massOf c hy s = massOf c hy s' := by
  unfold massOf
  refine Finset.sum_congr rfl fun k hk => Finset.sum_congr rfl fun i hi => ?_
  rw [Finset.mem_range] at hk hi
  rw [h ID_DENS (by simp [ID_DENS, NUM_VARS]) (k + hs) (by simp only [hs]; omega)
    (i + hs) (by simp only [hs]; omega)]

/-! ## Mass conservation of the integrator -/

theorem massOf_halo_x (c : Cfg) (hy : Hydro) (s : St) :
    massOf c hy (set_halo_values_x c hy s) = massOf c hy s := by
  unfold massOf
  refine Finset.sum_congr rfl fun k hk => Finset.sum_congr rfl fun i hi => ?_
  rw [Finset.mem_range] at hk hi
  rw [set_halo_values_x_interior c hy s ID_DENS (k + hs) (i + hs)
    (by simp only [hs]; omega) (by simp only [hs]; omega)]

theorem massOf_halo_z (c : Cfg) (hy : Hydro) (s : St) :
    massOf c hy (set_halo_values_z c hy s) = massOf c hy s := by
  unfold massOf
  refine Finset.sum_congr rfl fun k hk => Finset.sum_congr rfl fun i hi => ?_
  rw [Finset.mem_range] at hk hi
  rw [set_halo_values_z_interior c hy s ID_DENS (k + hs) (i + hs)
    (by simp only [hs]; omega) (by simp only [hs]; omega)]

theorem massOf_halo_dir (c : Cfg) (hy : Hydro) (dir : ℤ) (s : St) :
    massOf c hy (halo_dir c hy dir s) = massOf c hy s := by
  unfold halo_dir
  split_ifs
  · exact massOf_halo_x c hy s
  · exact massOf_halo_z c hy s
  · rfl

theorem massOf_halo_phase (c : Cfg) (hy : Hydro) (dir : ℤ) (bF : Bool) (m : Mem) (b : Bool) :
    massOf c hy (halo_phase c hy dir bF m b) = massOf c hy (m b) := by
  unfold halo_phase
  split_ifs with h
  · rw [h]; exact massOf_halo_dir c hy dir (m bF)
  · rfl

theorem tend_x_dens_sum (P : Prims) (c : Cfg) (hy : Hydro) (dtq : ℚ) (s : St) (k : ℕ) :
    (Finset.sum (Finset.range c.nx) fun i => tend_x P c hy dtq s ID_DENS k i) =
      (flux_x P c hy dtq s ID_DENS k 0 - flux_x P c hy dtq s ID_DENS k c.nx) / dx c := by
  have h : ∀ i, tend_x P c hy dtq s ID_DENS k i =
      flux_x P c hy dtq s ID_DENS k i / dx c - flux_x P c hy dtq s ID_DENS k (i + 1) / dx c := by
    intro i; unfold tend_x; ring
  rw [Finset.sum_congr rfl fun i _ => h i,
    Finset.sum_range_sub' (fun i => flux_x P c hy dtq s ID_DENS k i / dx c) c.nx]
  ring

theorem tend_z_dens_sum (P : Prims) (c : Cfg) (hy : Hydro) (dtq : ℚ) (s : St) (i : ℕ) :
    (Finset.sum (Finset.range c.nz) fun k => tend_z P c hy dtq s ID_DENS k i) =
      (flux_z P c hy dtq s ID_DENS 0 i - flux_z P c hy dtq s ID_DENS c.nz i) / dz c := by
  have h : ∀ k, tend_z P c hy dtq s ID_DENS k i =
      flux_z P c hy dtq s ID_DENS k i / dz c - flux_z P c hy dtq s ID_DENS (k + 1) i / dz c := by
    intro k
    unfold tend_z
    rw [if_neg (by simp [ID_DENS, ID_WMOM])]
    ring
  rw [Finset.sum_congr rfl fun k _ => h k,
    Finset.sum_range_sub' (fun k => flux_z P c hy dtq s ID_DENS k i / dz c) c.nz]
  ring

theorem flux_z_dens_zero (P : Prims) (c : Cfg) (hy : Hydro) (dtq : ℚ) (s : St)
    (k i : ℕ) (hk : k = 0 ∨ k = c.nz) :
    flux_z P c hy dtq s ID_DENS k i = 0 := by
  unfold flux_z flux_z_core
  simp [hk]

theorem set_halo_values_x_noinj (c : Cfg) (hy : Hydro) (s : St)
    (hinj : c.data_spec_int ≠ DATA_SPEC_INJECTION) :
    set_halo_values_x c hy s = halo_x_periodic c s := by
  unfold set_halo_values_x
  rw [if_neg (by tauto)]

theorem halo_x_wrap (c : Cfg) (s : St) (h2 : 2 ≤ c.nx) (l k j : ℕ)
    (hk1 : hs ≤ k) (hk2 : k < c.nz + hs) (hj : j < sten_size) :
    halo_x_periodic c s l k j = halo_x_periodic c s l k (c.nx + j) := by
  simp only [sten_size] at hj
  interval_cases j <;>
    simp only [halo_x_periodic] <;> simp only [hs] at * <;> split_ifs <;>
    first | rfl | omega

theorem flux_x_wrap (P : Prims) (c : Cfg) (hy : Hydro) (dtq : ℚ) (s : St)
    (h2 : 2 ≤ c.nx) (hinj : c.data_spec_int ≠ DATA_SPEC_INJECTION) (ll k : ℕ)
    (hk : k < c.nz) :
    flux_x P c hy dtq (set_halo_values_x c hy s) ll k c.nx =
      flux_x P c hy dtq (set_halo_values_x c hy s) ll k 0 := by
  unfold flux_x
  have e : stencil_x (set_halo_values_x c hy s) k c.nx =
      stencil_x (set_halo_values_x c hy s) k 0 := by
    unfold stencil_x
    refine List.map_congr_left fun l hl => List.map_congr_left fun j hj => ?_
    rw [List.mem_range] at hj
    rw [set_halo_values_x_noinj c hy s hinj, Nat.zero_add]
    exact (halo_x_wrap c s h2 l (k + hs) j (by simp only [hs]; omega)
      (by simp only [hs]; omega) (by simpa [sten_size] using hj)).symm
  rw [e]

theorem tend_x_dens_sum_zero (P : Prims) (c : Cfg) (hy : Hydro) (dtq : ℚ) (s : St)
    (h2 : 2 ≤ c.nx) (hinj : c.data_spec_int ≠ DATA_SPEC_INJECTION) (k : ℕ)
    (hk : k < c.nz) :
    (Finset.sum (Finset.range c.nx) fun i =>
      tend_x P c hy dtq (set_halo_values_x c hy s) ID_DENS k i) = 0 := by
  rw [tend_x_dens_sum, flux_x_wrap P c hy dtq s h2 hinj ID_DENS k hk]
  simp

theorem tend_z_dens_sum_zero (P : Prims) (c : Cfg) (hy : Hydro) (dtq : ℚ) (s : St)
    (i : ℕ) :
    (Finset.sum (Finset.range c.nz) fun k =>
      tend_z P c hy dtq (set_halo_values_z c hy s) ID_DENS k i) = 0 := by
  rw [tend_z_dens_sum,
    flux_z_dens_zero P c hy dtq _ 0 i (Or.inl rfl),
    flux_z_dens_zero P c hy dtq _ c.nz i (Or.inr rfl)]
  simp

theorem rhs_tend_dens_sum_zero (P : Prims) (c : Cfg) (hy : Hydro) (dtq : ℚ)
    (dir : ℤ) (s : St) (h2 : 2 ≤ c.nx) (hinj : c.data_spec_int ≠ DATA_SPEC_INJECTION) :
    (Finset.sum (Finset.range c.nz) fun k => Finset.sum (Finset.range c.nx) fun i =>
      rhs_tend P c hy dtq dir s ID_DENS k i) = 0 := by
  unfold rhs_tend
  split_ifs
  · refine Finset.sum_eq_zero fun k hk => ?_
    rw [Finset.mem_range] at hk
    exact tend_x_dens_sum_zero P c hy dtq s h2 hinj k hk
  · rw [Finset.sum_comm]
    exact Finset.sum_eq_zero fun i _ => tend_z_dens_sum_zero P c hy dtq s i
  · simp

theorem massOf_apply_tendencies (c : Cfg) (hy : Hydro) (gw : Bool) (wh : ℕ → ℕ → ℚ)
    (dtq : ℚ) (sInit : St) (td0 : Td) (out0 : St) :
    massOf c hy (apply_tendencies c gw wh dtq sInit td0 out0).2 =
      massOf c hy sInit + dtq * (dx c * dz c) *
        Finset.sum (Finset.range c.nz) (fun k =>
          Finset.sum (Finset.range c.nx) fun i => td0 ID_DENS k i) := by
  unfold massOf
  have key : ∀ k ∈ Finset.range c.nz, ∀ i ∈ Finset.range c.nx,
      ((apply_tendencies c gw wh dtq sInit td0 out0).2 ID_DENS (k + hs) (i + hs) +
          hy.cell (hs + k)) * dx c * dz c =
        (sInit ID_DENS (k + hs) (i + hs) + hy.cell (hs + k)) * dx c * dz c +
          dtq * (dx c * dz c) * td0 ID_DENS k i := by
    intro k hk i hi
    rw [Finset.mem_range] at hk hi
    rw [apply_tendencies_snd]
    rw [if_pos (by simp only [ID_DENS, NUM_VARS, hs]; omega)]
    rw [if_neg (by simp [ID_DENS, ID_WMOM])]
    have e1 : k + hs - hs = k := by omega
    have e2 : i + hs - hs = i := by omega
    rw [e1, e2]
    ring
  rw [Finset.sum_congr rfl fun k hk => Finset.sum_congr rfl fun i hi => key k hk i hi]
  simp only [Finset.sum_add_distrib, Finset.mul_sum]

theorem sds_mass_out (P : Prims) (c : Cfg) (hy : Hydro) (bI bF bO : Bool)
    (dtq : ℚ) (dir : ℤ) (m : Mem) (h2 : 2 ≤ c.nx)
    (hinj : c.data_spec_int ≠ DATA_SPEC_INJECTION) :
    massOf c hy (sds P c hy bI bF bO dtq dir m bO) = massOf c hy (m bI) := by
  have e : sds P c hy bI bF bO dtq dir m bO =
      (apply_tendencies c (decide (c.data_spec_int = DATA_SPEC_GRAVITY_WAVES))
        (wh_of P c hy) dtq (halo_phase c hy dir bF m bI)
        (rhs_tend P c hy dtq dir (m bF)) (halo_phase c hy dir bF m bO)).2 := by
    simp only [sds, semi_discrete_step, if_true]
  rw [e, massOf_apply_tendencies, massOf_halo_phase,
    rhs_tend_dens_sum_zero P c hy dtq dir (m bF) h2 hinj]
  ring

theorem sds_mass_frame (P : Prims) (c : Cfg) (hy : Hydro) (bI bF bO : Bool)
    (dtq : ℚ) (dir : ℤ) (m : Mem) (b : Bool) (hb : b ≠ bO) :
    massOf c hy (sds P c hy bI bF bO dtq dir m b) = massOf c hy (m b) := by
  have e : sds P c hy bI bF bO dtq dir m b = halo_phase c hy dir bF m b := by
    simp only [sds, semi_discrete_step]
    rw [if_neg hb]
  rw [e, massOf_halo_phase]

theorem rk_sweep_mass (P : Prims) (c : Cfg) (hy : Hydro) (dtq : ℚ) (dir : ℤ)
    (m : Mem) (h2 : 2 ≤ c.nx) (hinj : c.data_spec_int ≠ DATA_SPEC_INJECTION) :
    massOf c hy (rk_sweep P c hy dtq dir m false) = massOf c hy (m false) := by
  unfold rk_sweep
  rw [sds_mass_out P c hy false true false (dtq / 1) dir _ h2 hinj,
    sds_mass_frame P c hy false true true (dtq / 2) dir _ false (by simp),
    sds_mass_frame P c hy false false true (dtq / 3) dir _ false (by simp)]

theorem perform_timestep_mass (P : Prims) (c : Cfg) (hy : Hydro) (dtq : ℚ)
    (m : Mem) (dsw : ℤ) (h2 : 2 ≤ c.nx)
    (hinj : c.data_spec_int ≠ DATA_SPEC_INJECTION) :
    massOf c hy ((perform_timestep P c hy dtq m dsw).1 false) = massOf c hy (m false) := by
  unfold perform_timestep
  split_ifs
  · rw [rk_sweep_mass P c hy dtq DIR_Z _ h2 hinj, rk_sweep_mass P c hy dtq DIR_X m h2 hinj]
  · rw [rk_sweep_mass P c hy dtq DIR_X _ h2 hinj, rk_sweep_mass P c hy dtq DIR_Z m h2 hinj]

theorem stepN_mass (P : Prims) (c : Cfg) (hy : Hydro) (dtq : ℚ) (n : ℕ)
    (m : Mem) (dsw : ℤ) (h2 : 2 ≤ c.nx)
    (hinj : c.data_spec_int ≠ DATA_SPEC_INJECTION) :
    massOf c hy ((stepN P c hy dtq n (m, dsw)).1 false) = massOf c hy (m false) := by
  induction n generalizing m dsw with
  | zero => rfl
  | succ n ih =>
    show massOf c hy ((stepN P c hy dtq n (perform_timestep P c hy dtq m dsw)).1 false) = _
    have e : perform_timestep P c hy dtq m dsw =
        ((perform_timestep P c hy dtq m dsw).1, (perform_timestep P c hy dtq m dsw).2) := rfl
    rw [e, ih ((perform_timestep P c hy dtq m dsw).1) ((perform_timestep P c hy dtq m dsw).2),
      perform_timestep_mass P c hy dtq m dsw h2 hinj]

/-! ## Interior dependence: the stage output on the interior depends
only on the interior of the input buffers -/

theorem halo_x_periodic_int_congr {c : Cfg} {s s' : St} (h : InteriorEq c s s')
    (h2 : 2 ≤ c.nx) :
    ∀ ll : ℕ, ll < NUM_VARS → ∀ k : ℕ, hs ≤ k → k < c.nz + hs →
      ∀ i : ℕ, i < c.nx + 2 * hs →
        halo_x_periodic c s ll k i = halo_x_periodic c s' ll k i := by
  intro ll hll k hk1 hk2 i hi
  have hb : hs ≤ k ∧ k < c.nz + hs := ⟨hk1, hk2⟩
  simp only [halo_x_periodic, if_pos hb]
  split_ifs <;> refine h ll hll k hk1 hk2 _ ?_ ?_ <;> simp only [hs] at * <;> omega

theorem halo_x_inject_int_congr {c : Cfg} (hy : Hydro) {s1 s1' : St}
    (hrows : ∀ ll : ℕ, ll < NUM_VARS → ∀ k : ℕ, hs ≤ k → k < c.nz + hs →
      ∀ i : ℕ, i < c.nx + 2 * hs → s1 ll k i = s1' ll k i) :
    ∀ ll : ℕ, ll < NUM_VARS → ∀ k : ℕ, hs ≤ k → k < c.nz + hs →
      ∀ i : ℕ, i < c.nx + 2 * hs →
        halo_x_inject c hy s1 ll k i = halo_x_inject c hy s1' ll k i := by
  intro ll hll k hk1 hk2 i hi
  have hd : s1 ID_DENS k i = s1' ID_DENS k i :=
    hrows ID_DENS (by simp [ID_DENS, NUM_VARS]) k hk1 hk2 i hi
  have he : s1 ll k i = s1' ll k i := hrows ll hll k hk1 hk2 i hi
  simp only [halo_x_inject]
  split_ifs <;> simp_all

theorem set_halo_values_x_int_congr {c : Cfg} (hy : Hydro) {s s' : St}
    (h : InteriorEq c s s') (h2 : 2 ≤ c.nx) :
    ∀ ll : ℕ, ll < NUM_VARS → ∀ k : ℕ, hs ≤ k → k < c.nz + hs →
      ∀ i : ℕ, i < c.nx + 2 * hs →
        set_halo_values_x c hy s ll k i = set_halo_values_x c hy s' ll k i := by
  unfold set_halo_values_x
  split_ifs
  · exact halo_x_inject_int_congr hy (halo_x_periodic_int_congr h h2)
  · exact halo_x_periodic_int_congr h h2

theorem set_halo_values_z_int_congr {c : Cfg} (hy : Hydro) {s s' : St}
    (h : InteriorEq c s s') (h1 : 1 ≤ c.nz) :
    ∀ ll : ℕ, ll < NUM_VARS → ∀ k : ℕ, k < c.nz + 2 * hs →
      ∀ i : ℕ, hs ≤ i → i < c.nx + hs →
        set_halo_values_z c hy s ll k i = set_halo_values_z c hy s' ll k i := by
  intro ll hll k hk i hi1 hi2
  have key : ∀ n : ℕ, hs ≤ n → n < c.nz + hs → s ll n i = s' ll n i :=
    fun n a b => h ll hll n a b i hi1 hi2
  simp only [set_halo_values_z]
  by_cases hcond : i < c.nx + 2 * hs ∧ (k = 0 ∨ k = 1 ∨ k = c.nz + hs ∨ k = c.nz + hs + 1)
  · simp only [if_pos hcond]
    have hnb : hs ≤ (if k = 0 ∨ k = 1 then hs else c.nz + hs - 1) ∧
        (if k = 0 ∨ k = 1 then hs else c.nz + hs - 1) < c.nz + hs := by
      split_ifs <;> simp only [hs] at * <;> omega
    rw [key _ hnb.1 hnb.2]
  · simp only [if_neg hcond]
    exact h ll hll k (by simp only [hs] at *; omega) (by simp only [hs] at *; omega) i hi1 hi2

theorem tend_x_int_congr (P : Prims) (c : Cfg) (hy : Hydro) (dtq : ℚ) {s s' : St}
    (hrows : ∀ ll : ℕ, ll < NUM_VARS → ∀ k : ℕ, hs ≤ k → k < c.nz + hs →
      ∀ i : ℕ, i < c.nx + 2 * hs → s ll k i = s' ll k i)
    (ll : ℕ) {k i : ℕ} (hk : k < c.nz) (hi : i < c.nx) :
    tend_x P c hy dtq s ll k i = tend_x P c hy dtq s' ll k i := by
  have hsten : ∀ j : ℕ, j ≤ c.nx → stencil_x s k j = stencil_x s' k j := by
    intro j hj
    unfold stencil_x
    refine List.map_congr_left fun l hl => List.map_congr_left fun n hn => ?_
    rw [List.mem_range] at hl hn
    simp only [sten_size] at hn
    exact hrows l (by simpa [NUM_VARS] using hl) (k + hs) (by simp only [hs]; omega)
      (by simp only [hs]; omega) (j + n) (by simp only [hs]; omega)
  unfold tend_x flux_x
  rw [hsten i (by omega), hsten (i + 1) (by omega)]

theorem tend_z_int_congr (P : Prims) (c : Cfg) (hy : Hydro) (dtq : ℚ) {s s' : St}
    (hcols : ∀ ll : ℕ, ll < NUM_VARS → ∀ k : ℕ, k < c.nz + 2 * hs →
      ∀ i : ℕ, hs ≤ i → i < c.nx + hs → s ll k i = s' ll k i)
    (ll : ℕ) {k i : ℕ} (hk : k < c.nz) (hi : i < c.nx) :
    tend_z P c hy dtq s ll k i = tend_z P c hy dtq s' ll k i := by
  have hsten : ∀ j : ℕ, j ≤ c.nz → stencil_z s j i = stencil_z s' j i := by
    intro j hj
    unfold stencil_z
    refine List.map_congr_left fun l hl => List.map_congr_left fun n hn => ?_
    rw [List.mem_range] at hl hn
    simp only [sten_size] at hn
    exact hcols l (by simpa [NUM_VARS] using hl) (j + n) (by simp only [hs]; omega)
      (i + hs) (by simp only [hs]; omega) (by simp only [hs]; omega)
  unfold tend_z flux_z
  rw [hsten k (by omega), hsten (k + 1) (by omega),
    hcols ID_DENS (by simp [ID_DENS, NUM_VARS]) (k + hs) (by simp only [hs]; omega)
      (i + hs) (by simp only [hs]; omega) (by simp only [hs]; omega)]

theorem rhs_tend_int_congr (P : Prims) (c : Cfg) (hy : Hydro) (dtq : ℚ) (dir : ℤ)
    (h2 : 2 ≤ c.nx) (h1 : 1 ≤ c.nz) {s s' : St} (h : InteriorEq c s s')
    (ll : ℕ) {k i : ℕ} (hk : k < c.nz) (hi : i < c.nx) :
    rhs_tend P c hy dtq dir s ll k i = rhs_tend P c hy dtq dir s' ll k i := by
  unfold rhs_tend
  split_ifs
  · exact tend_x_int_congr P c hy dtq (set_halo_values_x_int_congr hy h h2) ll hk hi
  · exact tend_z_int_congr P c hy dtq (set_halo_values_z_int_congr hy h h1) ll hk hi
  · rfl

/-! ## The stage as the effective Runge-Kutta formula -/

theorem halo_phase_interior (c : Cfg) (hy : Hydro) (dir : ℤ) (bF : Bool) (m : Mem)
    (b : Bool) (ll k i : ℕ) (hk1 : hs ≤ k) (hk2 : k < c.nz + hs)
    (hi1 : hs ≤ i) (hi2 : i < c.nx + hs) :
    halo_phase c hy dir bF m b ll k i = m b ll k i := by
  unfold halo_phase
  split_ifs with h
  · rw [h]
    exact halo_dir_interior c hy dir (m bF) ll k i hk1 hk2 hi1 hi2
  · rfl

theorem sds_frame_eq (P : Prims) (c : Cfg) (hy : Hydro) (bI bF bO : Bool)
    (dtq : ℚ) (dir : ℤ) (m : Mem) (b : Bool) (hb : b ≠ bO) :
    sds P c hy bI bF bO dtq dir m b = halo_phase c hy dir bF m b := by
  simp only [sds, semi_discrete_step]
  rw [if_neg hb]

theorem sds_out_eff (P : Prims) (c : Cfg) (hy : Hydro) (bI bF bO : Bool)
    (dtq : ℚ) (dir : ℤ) (m : Mem) :
    InteriorEq c (sds P c hy bI bF bO dtq dir m bO)
      (rk_stage_eff P c hy dtq dir (m bI) (m bF)) := by
  intro ll hll k hk1 hk2 i hi1 hi2
  have e : sds P c hy bI bF bO dtq dir m bO =
      (apply_tendencies c (decide (c.data_spec_int = DATA_SPEC_GRAVITY_WAVES))
        (wh_of P c hy) dtq (halo_phase c hy dir bF m bI)
        (rhs_tend P c hy dtq dir (m bF)) (halo_phase c hy dir bF m bO)).2 := by
    simp only [sds, semi_discrete_step, if_true]
  rw [e, apply_tendencies_snd]
  unfold rk_stage_eff
  have hB : ll < NUM_VARS ∧ hs ≤ k ∧ k < c.nz + hs ∧ hs ≤ i ∧ i < c.nx + hs :=
    ⟨hll, hk1, hk2, hi1, hi2⟩
  simp only [if_pos hB]
  rw [halo_phase_interior c hy dir bF m bI ll k i hk1 hk2 hi1 hi2]
  simp only [decide_eq_true_eq]

theorem InteriorEq_trans {c : Cfg} {a b d : St} (h1 : InteriorEq c a b)
    (h2 : InteriorEq c b d) : InteriorEq c a d := by
  intro ll hll k hk1 hk2 i hi1 hi2
  rw [h1 ll hll k hk1 hk2 i hi1 hi2, h2 ll hll k hk1 hk2 i hi1 hi2]

theorem rk_stage_eff_int_congr (P : Prims) (c : Cfg) (hy : Hydro) (dtq : ℚ)
    (dir : ℤ) (h2 : 2 ≤ c.nx) (h1 : 1 ≤ c.nz) {Qi Qi' Qf Qf' : St}
    (hQi : InteriorEq c Qi Qi') (hQf : InteriorEq c Qf Qf') :
    InteriorEq c (rk_stage_eff P c hy dtq dir Qi Qf)
      (rk_stage_eff P c hy dtq dir Qi' Qf') := by
  intro ll hll k hk1 hk2 i hi1 hi2
  unfold rk_stage_eff
  have hB : ll < NUM_VARS ∧ hs ≤ k ∧ k < c.nz + hs ∧ hs ≤ i ∧ i < c.nx + hs :=
    ⟨hll, hk1, hk2, hi1, hi2⟩
  simp only [if_pos hB]
  rw [hQi ll hll k hk1 hk2 i hi1 hi2,
    rhs_tend_int_congr P c hy dtq dir h2 h1 hQf ll
      (show k - hs < c.nz by simp only [hs] at *; omega)
      (show i - hs < c.nx by simp only [hs] at *; omega)]

theorem rk_sweep_eff_int_congr (P : Prims) (c : Cfg) (hy : Hydro) (dtq : ℚ)
    (dir : ℤ) (h2 : 2 ≤ c.nx) (h1 : 1 ≤ c.nz) {q q' : St} (h : InteriorEq c q q') :
    InteriorEq c (rk_sweep_eff P c hy dtq dir q) (rk_sweep_eff P c hy dtq dir q') := by
  unfold rk_sweep_eff
  have s1 := rk_stage_eff_int_congr P c hy (dtq / 3) dir h2 h1 h h
  have s2 := rk_stage_eff_int_congr P c hy (dtq / 2) dir h2 h1 h s1
  exact rk_stage_eff_int_congr P c hy (dtq / 1) dir h2 h1 h s2

theorem rk_sweep_eff_correspond (P : Prims) (c : Cfg) (hy : Hydro) (dtq : ℚ)
    (dir : ℤ) (m : Mem) (h2 : 2 ≤ c.nx) (h1 : 1 ≤ c.nz) :
    InteriorEq c (rk_sweep P c hy dtq dir m false)
      (rk_sweep_eff P c hy dtq dir (m false)) := by
  have hm1f : InteriorEq c
      (sds P c hy false false true (dtq / 3) dir m false) (m false) := by
    intro ll hll k hk1 hk2 i hi1 hi2
    rw [sds_frame_eq P c hy false false true (dtq / 3) dir m false (by simp)]
    exact halo_phase_interior c hy dir false m false ll k i hk1 hk2 hi1 hi2
  have hm1t : InteriorEq c
      (sds P c hy false false true (dtq / 3) dir m true)
      (rk_stage_eff P c hy (dtq / 3) dir (m false) (m false)) :=
    sds_out_eff P c hy false false true (dtq / 3) dir m
  have hm2f : InteriorEq c
      (sds P c hy false true true (dtq / 2) dir
        (sds P c hy false false true (dtq / 3) dir m) false) (m false) := by
    intro ll hll k hk1 hk2 i hi1 hi2
    rw [sds_frame_eq P c hy false true true (dtq / 2) dir _ false (by simp)]
    rw [halo_phase_interior c hy dir true _ false ll k i hk1 hk2 hi1 hi2]
    exact hm1f ll hll k hk1 hk2 i hi1 hi2
  have hm2t : InteriorEq c
      (sds P c hy false true true (dtq / 2) dir
        (sds P c hy false false true (dtq / 3) dir m) true)
      (rk_stage_eff P c hy (dtq / 2) dir (m false)
        (rk_stage_eff P c hy (dtq / 3) dir (m false) (m false))) :=
    InteriorEq_trans
      (sds_out_eff P c hy false true true (dtq / 2) dir _)
      (rk_stage_eff_int_congr P c hy (dtq / 2) dir h2 h1 hm1f hm1t)
  have hout : InteriorEq c (rk_sweep P c hy dtq dir m false)
      (rk_stage_eff P c hy (dtq / 1) dir (m false)
        (rk_stage_eff P c hy (dtq / 2) dir (m false)
          (rk_stage_eff P c hy (dtq / 3) dir (m false) (m false)))) :=
    InteriorEq_trans
      (sds_out_eff P c hy false true false (dtq / 1) dir _)
      (rk_stage_eff_int_congr P c hy (dtq / 1) dir h2 h1 hm2f hm2t)
  exact hout

/-! ## Interior congruence of the reductions -/

theorem massOf_int_congr (c : Cfg) (hy : Hydro) {s s' : St} (h : InteriorEq c s s') :
    massOf c hy s = massOf c hy s' := by
  unfold massOf
  refine Finset.sum_congr rfl fun k hk => Finset.sum_congr rfl fun i hi => ?_
  rw [Finset.mem_range] at hk hi
  rw [h ID_DENS (by simp [ID_DENS, NUM_VARS]) (k + hs) (by simp only [hs]; omega)
    (by simp only [hs]; omega) (i + hs) (by simp only [hs]; omega)
    (by simp only [hs]; omega)]

theorem teOf_int_congr (P : Prims) (c : Cfg) (hy : Hydro) {s s' : St}
    (h : InteriorEq c s s') : teOf P c hy s = teOf P c hy s' := by
  unfold teOf
  refine Finset.sum_congr rfl fun k hk => Finset.sum_congr rfl fun i hi => ?_
  rw [Finset.mem_range] at hk hi
  have e : ∀ ll : ℕ, ll < NUM_VARS → s ll (k + hs) (i + hs) = s' ll (k + hs) (i + hs) :=
    fun ll hll => h ll hll (k + hs) (by simp only [hs]; omega) (by simp only [hs]; omega)
      (i + hs) (by simp only [hs]; omega) (by simp only [hs]; omega)
  rw [e ID_DENS (by simp [ID_DENS, NUM_VARS]), e ID_UMOM (by simp [ID_UMOM, NUM_VARS]),
    e ID_WMOM (by simp [ID_WMOM, NUM_VARS]), e ID_RHOT (by simp [ID_RHOT, NUM_VARS])]

/-! ## A stage with dt = 0 is a no-op on the interior -/

theorem rk_stage_eff_dt0 (P : Prims) (c : Cfg) (hy : Hydro) (dir : ℤ) (Qi Qf : St) :
    InteriorEq c (rk_stage_eff P c hy 0 dir Qi Qf) Qi := by
  intro ll hll k hk1 hk2 i hi1 hi2
  unfold rk_stage_eff
  have hB : ll < NUM_VARS ∧ hs ≤ k ∧ k < c.nz + hs ∧ hs ≤ i ∧ i < c.nx + hs :=
    ⟨hll, hk1, hk2, hi1, hi2⟩
  rw [if_pos hB]
  ring

theorem sds_frame_interior (P : Prims) (c : Cfg) (hy : Hydro) (bI bF bO : Bool)
    (dtq : ℚ) (dir : ℤ) (m : Mem) (b : Bool) (hb : b ≠ bO) :
    InteriorEq c (sds P c hy bI bF bO dtq dir m b) (m b) := by
  intro ll hll k hk1 hk2 i hi1 hi2
  rw [sds_frame_eq P c hy bI bF bO dtq dir m b hb]
  exact halo_phase_interior c hy dir bF m b ll k i hk1 hk2 hi1 hi2

theorem sds_dt0_out (P : Prims) (c : Cfg) (hy : Hydro) (bI bF bO : Bool)
    (dir : ℤ) (m : Mem) :
    InteriorEq c (sds P c hy bI bF bO 0 dir m bO) (m bI) :=
  InteriorEq_trans (sds_out_eff P c hy bI bF bO 0 dir m)
    (rk_stage_eff_dt0 P c hy dir (m bI) (m bF))

theorem rk_sweep_dt0 (P : Prims) (c : Cfg) (hy : Hydro) (dir : ℤ) (m : Mem) :
    InteriorEq c (rk_sweep P c hy 0 dir m false) (m false) := by
  have h0 : (0 : ℚ) / 3 = 0 := by norm_num
  have h1 : (0 : ℚ) / 2 = 0 := by norm_num
  have h2 : (0 : ℚ) / 1 = 0 := by norm_num
  unfold rk_sweep
  rw [h0, h1, h2]
  refine InteriorEq_trans (sds_dt0_out P c hy false true false dir _) ?_
  refine InteriorEq_trans
    (sds_frame_interior P c hy false true true 0 dir _ false (by simp)) ?_
  exact sds_frame_interior P c hy false false true 0 dir m false (by simp)

theorem perform_timestep_dt0 (P : Prims) (c : Cfg) (hy : Hydro) (m : Mem) (dsw : ℤ) :
    InteriorEq c ((perform_timestep P c hy 0 m dsw).1 false) (m false) := by
  have e1 : (perform_timestep P c hy 0 m dsw).1 =
      if dsw ≠ 0 then rk_sweep P c hy 0 DIR_Z (rk_sweep P c hy 0 DIR_X m)
      else rk_sweep P c hy 0 DIR_X (rk_sweep P c hy 0 DIR_Z m) := rfl
  rw [e1]
  split_ifs
  · exact InteriorEq_trans (rk_sweep_dt0 P c hy DIR_Z _) (rk_sweep_dt0 P c hy DIR_X m)
  · exact InteriorEq_trans (rk_sweep_dt0 P c hy DIR_X _) (rk_sweep_dt0 P c hy DIR_Z m)

/-! ## x-halo idempotence -/

theorem halo_x_inject_outband (c : Cfg) (hy : Hydro) (s : St) (ll k i : ℕ)
    (hk : ¬(hs ≤ k ∧ k < c.nz + hs)) :
    halo_x_inject c hy s ll k i = s ll k i := by
  simp only [halo_x_inject]
  rw [if_neg (by tauto)]

theorem halo_x_periodic_absorb_inject (c : Cfg) (hy : Hydro) (t : St) (h2 : 2 ≤ c.nx) :
    halo_x_periodic c (halo_x_inject c hy t) = halo_x_periodic c t := by
  funext ll k i
  simp only [halo_x_periodic]
  split_ifs with hband e0 e1 e2 e3
  · exact halo_x_inject_interior c hy t ll k _ (by simp only [hs] at *; omega)
  · exact halo_x_inject_interior c hy t ll k _ (by simp only [hs] at *; omega)
  · exact halo_x_inject_interior c hy t ll k _ (by simp only [hs] at *; omega)
  · exact halo_x_inject_interior c hy t ll k _ (by simp only [hs] at *; omega)
  · exact halo_x_inject_interior c hy t ll k _ (by simp only [hs] at *; omega)
  · exact halo_x_inject_outband c hy t ll k i hband

theorem halo_x_periodic_idem (c : Cfg) (s : St) (h2 : 2 ≤ c.nx) :
    halo_x_periodic c (halo_x_periodic c s) = halo_x_periodic c s := by
  funext ll k i
  by_cases hband : hs ≤ k ∧ k < c.nz + hs
  · simp only [halo_x_periodic, if_pos hband]
    simp only [hs] at *
    split_ifs <;> first | rfl | omega | contradiction
  · simp only [halo_x_periodic, if_neg hband]

/-! ## Rigid-lid invariant pieces -/

theorem scenario_w_zero (P : Prims) (ds : ℤ) (x z : ℚ) (junk : Sample)
    (hjw : junk.w = 0) : (scenarioSample P ds x z junk).w = 0 := by
  unfold scenarioSample
  split_ifs <;>
    simp [injection, density_current, gravity_waves, thermal, collision, hjw]

theorem halo_x_frame_row (c : Cfg) (hy : Hydro) (s : St) (ll k i : ℕ)
    (hk : ¬(hs ≤ k ∧ k < c.nz + hs)) :
    set_halo_values_x c hy s ll k i = s ll k i := by
  unfold set_halo_values_x
  split_ifs with hinj
  · rw [halo_x_inject_outband c hy _ ll k i hk]
    simp only [halo_x_periodic]
    rw [if_neg hk]
  · simp only [halo_x_periodic]
    rw [if_neg hk]

theorem set_halo_values_z_zinv (c : Cfg) (hy : Hydro) (s : St) :
    zInv c (set_halo_values_z c hy s) := by
  intro i hi
  refine ⟨?_, ?_, ?_, ?_⟩ <;> simp [set_halo_values_z, hi]

theorem set_halo_values_x_zinv (c : Cfg) (hy : Hydro) (s : St) (hz : zInv c s) :
    zInv c (set_halo_values_x c hy s) := by
  intro i hi
  obtain ⟨a, b, d, e⟩ := hz i hi
  refine ⟨?_, ?_, ?_, ?_⟩ <;>
    rw [halo_x_frame_row c hy s ID_WMOM _ i (by simp only [hs]; omega)] <;>
    assumption

theorem initState_zinv (P : Prims) (c : Cfg) (junk : Sample) (hjw : junk.w = 0) :
    zInv c (initState P c junk) := by
  have key : ∀ k i : ℕ, initState P c junk ID_WMOM k i = 0 := by
    intro k i
    unfold initState
    refine Finset.sum_eq_zero fun kk _ => Finset.sum_eq_zero fun ii _ => ?_
    simp only [ID_DENS, ID_UMOM, ID_WMOM, ID_RHOT]
    norm_num [scenario_w_zero P c.data_spec_int _ _ junk hjw]
  intro i hi
  exact ⟨key 0 i, key 1 i, key (c.nz + hs) i, key (c.nz + hs + 1) i⟩

theorem halo_dir_zinv (c : Cfg) (hy : Hydro) (dir : ℤ) (s : St) (hz : zInv c s) :
    zInv c (halo_dir c hy dir s) := by
  unfold halo_dir
  split_ifs
  · exact set_halo_values_x_zinv c hy s hz
  · exact set_halo_values_z_zinv c hy s
  · exact hz

theorem halo_phase_zinv (c : Cfg) (hy : Hydro) (dir : ℤ) (bF : Bool) (m : Mem)
    (hz : ∀ b' : Bool, zInv c (m b')) (b : Bool) :
    zInv c (halo_phase c hy dir bF m b) := by
  unfold halo_phase
  split_ifs
  · exact halo_dir_zinv c hy dir (m bF) (hz bF)
  · exact hz b

theorem sds_zinv (P : Prims) (c : Cfg) (hy : Hydro) (bI bF bO : Bool) (dtq : ℚ)
    (dir : ℤ) (m : Mem) (b : Bool) (hz : ∀ b' : Bool, zInv c (m b')) :
    zInv c (sds P c hy bI bF bO dtq dir m b) := by
  by_cases hb : b = bO
  · have e : sds P c hy bI bF bO dtq dir m b =
        (apply_tendencies c (decide (c.data_spec_int = DATA_SPEC_GRAVITY_WAVES))
          (wh_of P c hy) dtq (halo_phase c hy dir bF m bI)
          (rhs_tend P c hy dtq dir (m bF)) (halo_phase c hy dir bF m bO)).2 := by
      simp only [sds, semi_discrete_step]
      rw [if_pos hb]
    rw [e]
    intro i hi
    have hp := halo_phase_zinv c hy dir bF m hz bO i hi
    refine ⟨?_, ?_, ?_, ?_⟩ <;> rw [apply_tendencies_snd]
    · rw [if_neg (by simp only [ID_WMOM, NUM_VARS, hs]; omega)]
      exact hp.1
    · rw [if_neg (by simp only [ID_WMOM, NUM_VARS, hs]; omega)]
      exact hp.2.1
    · rw [if_neg (by simp only [ID_WMOM, NUM_VARS, hs]; omega)]
      exact hp.2.2.1
    · rw [if_neg (by simp only [ID_WMOM, NUM_VARS, hs]; omega)]
      exact hp.2.2.2
  · rw [sds_frame_eq P c hy bI bF bO dtq dir m b hb]
    exact halo_phase_zinv c hy dir bF m hz b

/-! ## The claim theorems -/

/-- Claim C1 (corrected): with the injection scenario excluded, the
domain-total mass of the reductions routine is exactly conserved by any
number of perform_timestep calls, hence trivially within the 1e-13
relative tolerance; the x-tendencies telescope under the periodic halo
and the z-kernel zeroes the boundary density flux.  For the injection
scenario the halo override breaks the telescoping and mass is not
conserved (see the counterexample). -/
theorem c1_mass_conservation (P : Prims) (c : Cfg) (hy : Hydro) (dtq : ℚ)
    (n : ℕ) (m : Mem) (dsw : ℤ) (h2 : 2 ≤ c.nx)
    (hinj : c.data_spec_int ≠ DATA_SPEC_INJECTION) :
    massOf c hy ((stepN P c hy dtq n (m, dsw)).1 false) = massOf c hy (m false) ∧
    |massOf c hy ((stepN P c hy dtq n (m, dsw)).1 false) - massOf c hy (m false)| ≤
      1e-13 * |massOf c hy (m false)| := by
  have h := stepN_mass P c hy dtq n m dsw h2 hinj
  refine ⟨h, ?_⟩
  rw [h, sub_self, abs_zero]
  exact mul_nonneg (by norm_num) (abs_nonneg _)

/-- Claim C2 (corrected): perform_timestep advances the state by two
three-stage Runge-Kutta dimension sweeps, X before Z when
direction_switch is nonzero and Z before X otherwise, toggling
direction_switch; each stage computes
out = init + dt*(RHS(forcing) + gravity-waves forcing) on the interior,
so the pure Q + dt*RHS(Q) stage form of the spec holds only when the
scenario is not gravity_waves (see the counterexample). -/
theorem c2_rk_sweep_structure (P : Prims) (c : Cfg) (hy : Hydro) (dtq : ℚ)
    (m : Mem) (dsw : ℤ) (h2 : 2 ≤ c.nx) (h1 : 1 ≤ c.nz) :
    InteriorEq c ((perform_timestep P c hy dtq m dsw).1 false)
      (if dsw ≠ 0 then
        rk_sweep_eff P c hy dtq DIR_Z (rk_sweep_eff P c hy dtq DIR_X (m false))
      else
        rk_sweep_eff P c hy dtq DIR_X (rk_sweep_eff P c hy dtq DIR_Z (m false))) ∧
    (perform_timestep P c hy dtq m dsw).2 = (if dsw ≠ 0 then 0 else 1) := by
  constructor
  · have e1 : (perform_timestep P c hy dtq m dsw).1 =
        if dsw ≠ 0 then rk_sweep P c hy dtq DIR_Z (rk_sweep P c hy dtq DIR_X m)
        else rk_sweep P c hy dtq DIR_X (rk_sweep P c hy dtq DIR_Z m) := rfl
    rw [e1]
    split_ifs with hdsw
    · exact InteriorEq_trans (rk_sweep_eff_correspond P c hy dtq DIR_Z _ h2 h1)
        (rk_sweep_eff_int_congr P c hy dtq DIR_Z h2 h1
          (rk_sweep_eff_correspond P c hy dtq DIR_X m h2 h1))
    · exact InteriorEq_trans (rk_sweep_eff_correspond P c hy dtq DIR_X _ h2 h1)
        (rk_sweep_eff_int_congr P c hy dtq DIR_X h2 h1
          (rk_sweep_eff_correspond P c hy dtq DIR_Z m h2 h1))
  · rfl

/-- Claim C3 (corrected): init computes the hydrostatic cell averages by
summing over the three quadrature weights, but evaluates the scenario at
the cell-midpoint height z = (k_beg + k - hs + 0.5)*dz for every
quadrature point: the quadrature-shifted heights claimed by the spec are
not used, so each cell average is the midpoint sample scaled by the sum
of the weights (see the counterexample). -/
theorem c3_hydro_cell_profiles (P : Prims) (c : Cfg) (junk : Sample) (k : ℕ) :
    (initHydro P c junk).cell k =
      (scenarioSample P c.data_spec_int 0 (((k : ℚ) - (hs : ℚ) + 0.5) * dz c) junk).hr *
        (qweights 0 + qweights 1 + qweights 2) ∧
    (initHydro P c junk).thetaCell k =
      (scenarioSample P c.data_spec_int 0 (((k : ℚ) - (hs : ℚ) + 0.5) * dz c) junk).hr *
        (scenarioSample P c.data_spec_int 0 (((k : ℚ) - (hs : ℚ) + 0.5) * dz c) junk).ht *
        (qweights 0 + qweights 1 + qweights 2) := by
  constructor <;>
    · simp only [initHydro, nqpoints, Finset.sum_range_succ, Finset.sum_range_zero]
      ring

/-- Claim C4 (corrected): when the scenario is gravity_waves, the fused
state-update loop of semi_discrete_step adds the forcing increment
wpert*hy_dens_cell[hs+k] to tend[WMOM,k,i] once per variable pass: the
returned tendency holds four increments, and the WMOM state write uses
the value after three increments, not exactly one as the spec claims
(see the counterexample). -/
theorem c4_gravity_wave_forcing (P : Prims) (c : Cfg) (hy : Hydro)
    (bI bF bO : Bool) (dtq : ℚ) (dir : ℤ) (m : Mem) (k i : ℕ)
    (hgw : c.data_spec_int = DATA_SPEC_GRAVITY_WAVES) (hk : k < c.nz) (hi : i < c.nx) :
    (semi_discrete_step P c hy bI bF bO dtq dir m).2 ID_WMOM k i =
      rhs_tend P c hy dtq dir (m bF) ID_WMOM k i + 4 * wh_of P c hy k i ∧
    sds P c hy bI bF bO dtq dir m bO ID_WMOM (k + hs) (i + hs) =
      halo_phase c hy dir bF m bI ID_WMOM (k + hs) (i + hs) +
        dtq * (rhs_tend P c hy dtq dir (m bF) ID_WMOM k i + 3 * wh_of P c hy k i) := by
  have egw : decide (c.data_spec_int = DATA_SPEC_GRAVITY_WAVES) = true := by
    simp [hgw]
  constructor
  · have e : (semi_discrete_step P c hy bI bF bO dtq dir m).2 =
        (apply_tendencies c (decide (c.data_spec_int = DATA_SPEC_GRAVITY_WAVES))
          (wh_of P c hy) dtq (halo_phase c hy dir bF m bI)
          (rhs_tend P c hy dtq dir (m bF)) (halo_phase c hy dir bF m bO)).1 := rfl
    have hC : decide (c.data_spec_int = DATA_SPEC_GRAVITY_WAVES) = true ∧
        ID_WMOM = ID_WMOM ∧ k < c.nz ∧ i < c.nx := ⟨egw, rfl, hk, hi⟩
    rw [e, apply_tendencies_fst, if_pos hC]
  · have e2 : sds P c hy bI bF bO dtq dir m bO =
        (apply_tendencies c (decide (c.data_spec_int = DATA_SPEC_GRAVITY_WAVES))
          (wh_of P c hy) dtq (halo_phase c hy dir bF m bI)
          (rhs_tend P c hy dtq dir (m bF)) (halo_phase c hy dir bF m bO)).2 := by
      simp only [sds, semi_discrete_step, if_true]
    have hB : ID_WMOM < NUM_VARS ∧ hs ≤ k + hs ∧ k + hs < c.nz + hs ∧
        hs ≤ i + hs ∧ i + hs < c.nx + hs := by
      simp only [ID_WMOM, NUM_VARS, hs]
      omega
    rw [e2, apply_tendencies_snd, if_pos hB]
    have e3 : k + hs - hs = k := by omega
    have e4 : i + hs - hs = i := by omega
    have hG : decide (c.data_spec_int = DATA_SPEC_GRAVITY_WAVES) = true ∧
        ID_WMOM = ID_WMOM := ⟨egw, rfl⟩
    rw [e3, e4, if_pos hG]

/-- Model-level record for claim C5: under the model's total-division
convention (q / 0 = 0, so hv_coef collapses to 0 at a zero stage dt), a
perform_timestep with dt = 0 writes state_out = state_init + 0*tend on
every interior cell and only halo cells elsewhere, and the reductions
pair is unchanged.  This is exactly the point where the model and the
program part ways: in IEEE doubles hv_coef is -inf at dt = 0, the
fluxes and tendencies are non-finite, and state_init + 0.0*tend is NaN,
so the no-op law of the spec holds of the model but not of the program;
the claim is settled as a code/spec divergence, not by this theorem. -/
theorem perform_timestep_dt0_model_noop (P : Prims) (c : Cfg) (junk : Sample) (dsw : ℤ) :
    reductions P c (initHydro P c junk)
        ((perform_timestep P c (initHydro P c junk) 0
          (fun _ => initState P c junk) dsw).1 false) =
      reductions P c (initHydro P c junk) (initState P c junk) := by
  have h := perform_timestep_dt0 P c (initHydro P c junk)
    (fun _ => initState P c junk) dsw
  unfold reductions
  rw [massOf_int_congr c _ h, teOf_int_congr P c _ h]

/-- Claim C6 (confirmed): for every state and every scenario, injection
on rank 0 included, applying set_halo_values_x twice in succession gives
a state identical to applying it once, provided the domain has at least
two interior columns (nx >= 2, as in every supported configuration). -/
theorem c6_halo_x_idempotent (c : Cfg) (hy : Hydro) (s : St) (h2 : 2 ≤ c.nx) :
    set_halo_values_x c hy (set_halo_values_x c hy s) = set_halo_values_x c hy s := by
  unfold set_halo_values_x
  split_ifs with hinj
  · rw [halo_x_periodic_absorb_inject c hy _ h2, halo_x_periodic_idem c s h2]
  · exact halo_x_periodic_idem c s h2

/-- Claim C7 (confirmed): under every buffer aliasing (including the
three used by the integrator), the stage writes
out = init + dt*(RHS(forcing) + gravity-waves forcing) on the interior,
where init and forcing are the buffer contents at entry; every buffer
other than the out buffer is changed only by the halo exchange of the
forcing buffer, so the initial state is never overwritten during the
stage's own RHS evaluation. -/
theorem c7_stage_aliasing (P : Prims) (c : Cfg) (hy : Hydro) (bI bF bO : Bool)
    (dtq : ℚ) (dir : ℤ) (m : Mem) :
    InteriorEq c (sds P c hy bI bF bO dtq dir m bO)
      (rk_stage_eff P c hy dtq dir (m bI) (m bF)) ∧
    (∀ b : Bool, b ≠ bO →
      sds P c hy bI bF bO dtq dir m b = halo_phase c hy dir bF m b) :=
  ⟨sds_out_eff P c hy bI bF bO dtq dir m,
   fun b hb => sds_frame_eq P c hy bI bF bO dtq dir m b hb⟩

/-- Claim C8 (corrected): init performs no data_spec validation and the
program has no startup failure path for an unknown data_spec: init
always returns normally, and the scenario dispatch leaves the
state-sample locals at their previous (junk) values when data_spec_int
matches no known scenario (see the counterexample). -/
theorem c8_no_data_spec_validation (P : Prims) (c : Cfg) (junk : Sample) (x z : ℚ)
    (h1 : c.data_spec_int ≠ DATA_SPEC_COLLISION)
    (h2 : c.data_spec_int ≠ DATA_SPEC_THERMAL)
    (h3 : c.data_spec_int ≠ DATA_SPEC_GRAVITY_WAVES)
    (h5 : c.data_spec_int ≠ DATA_SPEC_DENSITY_CURRENT)
    (h6 : c.data_spec_int ≠ DATA_SPEC_INJECTION) :
    initE P c junk = Except.ok (initState P c junk, initHydro P c junk) ∧
    scenarioSample P c.data_spec_int x z junk = junk := by
  refine ⟨rfl, ?_⟩
  simp only [scenarioSample]
  rw [if_neg h6, if_neg h5, if_neg h3, if_neg h2, if_neg h1]

/-- Claim C9 (confirmed): the rigid-lid property as an invariant:
set_halo_values_z establishes zero vertical momentum on the four z-halo
rows, set_halo_values_x preserves it (it writes only interior rows),
init establishes it (every scenario sets w = 0), and every
semi_discrete_step preserves it on both buffers, so state[WMOM] is 0 on
the z-halo rows after any halo call of the program. -/
theorem c9_rigid_lid :
    (∀ (c : Cfg) (hy : Hydro) (s : St), zInv c (set_halo_values_z c hy s)) ∧
    (∀ (c : Cfg) (hy : Hydro) (s : St), zInv c s → zInv c (set_halo_values_x c hy s)) ∧
    (∀ (P : Prims) (c : Cfg) (junk : Sample), junk.w = 0 → zInv c (initState P c junk)) ∧
    (∀ (P : Prims) (c : Cfg) (hy : Hydro) (bI bF bO : Bool) (dtq : ℚ) (dir : ℤ)
      (m : Mem) (b : Bool), (∀ b' : Bool, zInv c (m b')) →
        zInv c (sds P c hy bI bF bO dtq dir m b)) :=
  ⟨set_halo_values_z_zinv, set_halo_values_x_zinv, initState_zinv, sds_zinv⟩

/-- Claim C10 (confirmed): the compute_tendencies kernels never write
the state buffer passed to them, and their writes to the flux and tend
arrays stay inside the documented index ranges: every entry outside
those ranges is unchanged. -/
theorem c10_tendencies_state_frame (P : Prims) (c : Cfg) (hy : Hydro) (dtq : ℚ)
    (m : KMem) :
    (compute_tendencies_x P c hy dtq m).state = m.state ∧
    (compute_tendencies_z P c hy dtq m).state = m.state ∧
    (∀ ll k i : ℕ, ¬(ll < NUM_VARS ∧ k < c.nz ∧ i < c.nx + 1) →
      (compute_tendencies_x P c hy dtq m).flux ll k i = m.flux ll k i) ∧
    (∀ ll k i : ℕ, ¬(ll < NUM_VARS ∧ k < c.nz ∧ i < c.nx) →
      (compute_tendencies_x P c hy dtq m).tend ll k i = m.tend ll k i) ∧
    (∀ ll k i : ℕ, ¬(ll < NUM_VARS ∧ k < c.nz + 1 ∧ i < c.nx) →
      (compute_tendencies_z P c hy dtq m).flux ll k i = m.flux ll k i) ∧
    (∀ ll k i : ℕ, ¬(ll < NUM_VARS ∧ k < c.nz ∧ i < c.nx) →
      (compute_tendencies_z P c hy dtq m).tend ll k i = m.tend ll k i) := by
  refine ⟨rfl, rfl, ?_, ?_, ?_, ?_⟩ <;> intro ll k i h <;>
    simp only [compute_tendencies_x, compute_tendencies_z] <;> rw [if_neg h]

/-! ## Concrete evaluation: counterexamples and witnesses -/

attribute [local semireducible] Rat.add Rat.sub Rat.mul Rat.inv Rat.ofScientific

/-- Counterexample to claim C1 as stated: for the injection scenario on
the 2x2 grid the domain-total mass changes in the very first
perform_timestep, because the injected x-halo values break the flux
telescoping. -/
theorem c1_counterexample :
    massOf cfgInj hyInj ((perform_timestep P1 cfgInj hyInj (dtOf cfgInj) mem0 1).1 false) ≠
      massOf cfgInj hyInj (mem0 false) := by
  have h0 : MEqP cfgInj mem0 (mkMem cfgInj W0L W0L) := by decide
  have h1 : MEqP cfgInj
      (sds P1 cfgInj hyInj false false true (dtOf cfgInj / 3) DIR_X (mkMem cfgInj W0L W0L))
      (mkMem cfgInj S1A S1B) := by decide
  have h2 : MEqP cfgInj
      (sds P1 cfgInj hyInj false true true (dtOf cfgInj / 2) DIR_X (mkMem cfgInj S1A S1B))
      (mkMem cfgInj S2A S2B) := by decide
  have h3 : MEqP cfgInj
      (sds P1 cfgInj hyInj false true false (dtOf cfgInj / 1) DIR_X (mkMem cfgInj S2A S2B))
      (mkMem cfgInj S3A S3B) := by decide
  have h4 : MEqP cfgInj
      (sds P1 cfgInj hyInj false false true (dtOf cfgInj / 3) DIR_Z (mkMem cfgInj S3A S3B))
      (mkMem cfgInj S4A S4B) := by decide
  have h5 : MEqP cfgInj
      (sds P1 cfgInj hyInj false true true (dtOf cfgInj / 2) DIR_Z (mkMem cfgInj S4A S4B))
      (mkMem cfgInj S5A S5B) := by decide
  have h6 : MEqP cfgInj
      (sds P1 cfgInj hyInj false true false (dtOf cfgInj / 1) DIR_Z (mkMem cfgInj S5A S5B))
      (mkMem cfgInj S6A S6B) := by decide
  have g1 := MEqP_trans
    (sds_congr P1 cfgInj hyInj false false true (dtOf cfgInj / 3) DIR_X h0) h1
  have g2 := MEqP_trans
    (sds_congr P1 cfgInj hyInj false true true (dtOf cfgInj / 2) DIR_X g1) h2
  have g3 := MEqP_trans
    (sds_congr P1 cfgInj hyInj false true false (dtOf cfgInj / 1) DIR_X g2) h3
  have g4 := MEqP_trans
    (sds_congr P1 cfgInj hyInj false false true (dtOf cfgInj / 3) DIR_Z g3) h4
  have g5 := MEqP_trans
    (sds_congr P1 cfgInj hyInj false true true (dtOf cfgInj / 2) DIR_Z g4) h5
  have g6 := MEqP_trans
    (sds_congr P1 cfgInj hyInj false true false (dtOf cfgInj / 1) DIR_Z g5) h6
  have e1 : (perform_timestep P1 cfgInj hyInj (dtOf cfgInj) mem0 1).1 =
      sds P1 cfgInj hyInj false true false (dtOf cfgInj / 1) DIR_Z
        (sds P1 cfgInj hyInj false true true (dtOf cfgInj / 2) DIR_Z
          (sds P1 cfgInj hyInj false false true (dtOf cfgInj / 3) DIR_Z
            (sds P1 cfgInj hyInj false true false (dtOf cfgInj / 1) DIR_X
              (sds P1 cfgInj hyInj false true true (dtOf cfgInj / 2) DIR_X
                (sds P1 cfgInj hyInj false false true (dtOf cfgInj / 3) DIR_X mem0))))) := rfl
  rw [e1, massOf_congr cfgInj hyInj g6.1, massOf_congr cfgInj hyInj h0.1]
  decide

/-- Witness for claim C1's theorem at the thermal 2x2 configuration. -/
theorem c1_mass_conservation_witness :
    (2 ≤ cfgTh.nx ∧ cfgTh.data_spec_int ≠ DATA_SPEC_INJECTION) ∧
    (massOf cfgTh hyOne ((stepN P1 cfgTh hyOne 1 1 (memZ, 1)).1 false) =
        massOf cfgTh hyOne (memZ false) ∧
      |massOf cfgTh hyOne ((stepN P1 cfgTh hyOne 1 1 (memZ, 1)).1 false) -
          massOf cfgTh hyOne (memZ false)| ≤ 1e-13 * |massOf cfgTh hyOne (memZ false)|) :=
  ⟨⟨by decide, by decide⟩,
   c1_mass_conservation P1 cfgTh hyOne 1 1 memZ 1 (by decide) (by decide)⟩

/-- Counterexample to the pure stage form of claim C2: with the
gravity_waves scenario the first stage's written state differs from
init + dt*RHS(forcing) at the interior cell (0,0). -/
theorem c2_counterexample :
    sds P1 cfgGW hyOne false false true 1 DIR_X memZ true ID_WMOM 2 2 ≠
      rk_stage_claimC2 P1 cfgGW hyOne 1 DIR_X (memZ false) (memZ false) ID_WMOM 2 2 := by
  decide

/-- Witness for claim C2's theorem at the thermal 2x2 configuration. -/
theorem c2_rk_sweep_structure_witness :
    (2 ≤ cfgTh.nx ∧ 1 ≤ cfgTh.nz) ∧
    (InteriorEq cfgTh ((perform_timestep P1 cfgTh hyOne 1 memZ 1).1 false)
      (if (1 : ℤ) ≠ 0 then
        rk_sweep_eff P1 cfgTh hyOne 1 DIR_Z (rk_sweep_eff P1 cfgTh hyOne 1 DIR_X (memZ false))
      else
        rk_sweep_eff P1 cfgTh hyOne 1 DIR_X (rk_sweep_eff P1 cfgTh hyOne 1 DIR_Z (memZ false))) ∧
    (perform_timestep P1 cfgTh hyOne 1 memZ 1).2 = (if (1 : ℤ) ≠ 0 then 0 else 1)) :=
  ⟨⟨by decide, by decide⟩,
   c2_rk_sweep_structure P1 cfgTh hyOne 1 memZ 1 (by decide) (by decide)⟩

/-- Counterexample to claim C3 as stated: with pow returning its base,
the hydrostatic density is linear in height, and on the thermal 2x2
grid the cell average computed by init differs from the
quadrature-shifted average the spec describes, because the quadrature
weights do not sum to exactly one. -/
theorem c3_counterexample :
    (initHydro Pline cfgTh junk0).cell 0 ≠ hy_dens_cell_claimC3 Pline cfgTh junk0 0 := by
  decide

/-- Counterexample to claim C4 as stated: with the gravity_waves
scenario, the tendency returned by semi_discrete_step at cell (0,0)
differs from one forcing increment over the RHS tendency (the loop adds
four). -/
theorem c4_counterexample :
    (semi_discrete_step P1 cfgGW hyOne false false true 1 DIR_X memZ).2 ID_WMOM 0 0 ≠
      rhs_tend P1 cfgGW hyOne 1 DIR_X (memZ false) ID_WMOM 0 0 +
        wh_of P1 cfgGW hyOne 0 0 := by
  decide

/-- Witness for claim C4's theorem at the gravity-waves 4x10 configuration. -/
theorem c4_gravity_wave_forcing_witness :
    (cfgGW.data_spec_int = DATA_SPEC_GRAVITY_WAVES ∧ 0 < cfgGW.nz ∧ 0 < cfgGW.nx) ∧
    ((semi_discrete_step P1 cfgGW hyOne false false true 1 DIR_X memZ).2 ID_WMOM 0 0 =
        rhs_tend P1 cfgGW hyOne 1 DIR_X (memZ false) ID_WMOM 0 0 +
          4 * wh_of P1 cfgGW hyOne 0 0 ∧
      sds P1 cfgGW hyOne false false true 1 DIR_X memZ true ID_WMOM (0 + hs) (0 + hs) =
        halo_phase cfgGW hyOne DIR_X false memZ false ID_WMOM (0 + hs) (0 + hs) +
          1 * (rhs_tend P1 cfgGW hyOne 1 DIR_X (memZ false) ID_WMOM 0 0 +
            3 * wh_of P1 cfgGW hyOne 0 0)) :=
  ⟨⟨by decide, by decide, by decide⟩,
   c4_gravity_wave_forcing P1 cfgGW hyOne false false true 1 DIR_X memZ 0 0
     (by decide) (by decide) (by decide)⟩

/-- Witness for claim C6's theorem at the injection 2x2 configuration. -/
theorem c6_halo_x_idempotent_witness :
    2 ≤ cfgInj.nx ∧
    set_halo_values_x cfgInj hyOne (set_halo_values_x cfgInj hyOne sZ) =
      set_halo_values_x cfgInj hyOne sZ :=
  ⟨by decide, c6_halo_x_idempotent cfgInj hyOne sZ (by decide)⟩

/-- Witness for claim C7's theorem at the first stage's buffer roles. -/
theorem c7_stage_aliasing_witness :
    InteriorEq cfgTh (sds P1 cfgTh hyOne false false true 1 DIR_X memZ true)
      (rk_stage_eff P1 cfgTh hyOne 1 DIR_X (memZ false) (memZ false)) ∧
    sds P1 cfgTh hyOne false false true 1 DIR_X memZ false =
      halo_phase cfgTh hyOne DIR_X false memZ false :=
  ⟨(c7_stage_aliasing P1 cfgTh hyOne false false true 1 DIR_X memZ).1,
   (c7_stage_aliasing P1 cfgTh hyOne false false true 1 DIR_X memZ).2 false (by decide)⟩

/-- Counterexample to claim C8 as stated: with the unknown data_spec 4
the program does not fail at startup: init returns normally and the
scenario dispatch leaves the sample locals at their junk values. -/
theorem c8_counterexample :
    initE P1 cfgBad junk0 =
      Except.ok (initState P1 cfgBad junk0, initHydro P1 cfgBad junk0) ∧
    scenarioSample P1 4 0 0 junk0 = junk0 :=
  ⟨rfl, rfl⟩

/-- Witness for claim C8's theorem at data_spec 4. -/
theorem c8_no_data_spec_validation_witness :
    (cfgBad.data_spec_int ≠ DATA_SPEC_COLLISION ∧
      cfgBad.data_spec_int ≠ DATA_SPEC_THERMAL ∧
      cfgBad.data_spec_int ≠ DATA_SPEC_GRAVITY_WAVES ∧
      cfgBad.data_spec_int ≠ DATA_SPEC_DENSITY_CURRENT ∧
      cfgBad.data_spec_int ≠ DATA_SPEC_INJECTION) ∧
    (initE P1 cfgBad junk0 =
        Except.ok (initState P1 cfgBad junk0, initHydro P1 cfgBad junk0) ∧
      scenarioSample P1 cfgBad.data_spec_int 0 0 junk0 = junk0) :=
  ⟨⟨by decide, by decide, by decide, by decide, by decide⟩,
   c8_no_data_spec_validation P1 cfgBad junk0 0 0
     (by decide) (by decide) (by decide) (by decide) (by decide)⟩

/-- Witness for claim C9's theorem: the x-halo preserves the rigid-lid
invariant of the zero state on the thermal 2x2 grid. -/
theorem c9_rigid_lid_witness :
    zInv cfgTh (set_halo_values_x cfgTh hyOne sZ) :=
  c9_rigid_lid.2.1 cfgTh hyOne sZ (by decide)

/-- Witness for claim C10's theorem on a zero kernel memory. -/
theorem c10_tendencies_state_frame_witness :
    (compute_tendencies_x P1 cfgTh hyOne 1 kmZ).state = kmZ.state ∧
    (compute_tendencies_x P1 cfgTh hyOne 1 kmZ).tend 5 0 0 = kmZ.tend 5 0 0 :=
  ⟨(c10_tendencies_state_frame P1 cfgTh hyOne 1 kmZ).1,
   (c10_tendencies_state_frame P1 cfgTh hyOne 1 kmZ).2.2.2.1 5 0 0 (by decide)⟩
